import Mathlib

/-! SPICE model export: the Ideal and the Behavioral simulation models.

A shallow embedding of `eeschema/sim/sim_model_ideal.cpp`,
`eeschema/sim/sim_model_behavioral.cpp` and the parameter grid, the pin
assignments and the library and instance models of
`eeschema/dialogs/dialog_sim_model.cpp`.

* A `std::string` is the list of its characters (`Str`).
* A C++ member function that mutates the model takes the model and returns the
  new one; a function that can throw returns `Except ERR _`.
* `wxFAIL_MSG` does not leave the function: the message is recorded and control
  goes on to the next statement. Functions that contain one return a `Traced`
  value, the recorded messages next to what the function returns.
* The declarations of the simulation-model base classes (`sim_model.h`,
  `sim_value.h`, `spice_generator.h`) that the two files call are gathered in
  `SIM_ENV` and are parameters of every definition that needs them.
-/

/-- A std::string, as the sequence of its characters. -/
abbrev Str := List Char

/-! ## Text primitives used by the sources -/

/-- The std::isspace test of the classic locale, which boost::trim_copy applies. -/
def isSpace (c : Char) : Bool :=
  c = ' ' || c = '\t' || c = '\n' || c = '\x0b' || c = '\x0c' || c = '\r'

/-- The boost::trim_copy call: drop leading and trailing whitespace. -/
def trim_copy (s : Str) : Str :=
  ((s.dropWhile isSpace).reverse.dropWhile isSpace).reverse

/-- The std::string::find call: index of the first occurrence of `search`,
`none` standing for `npos`. -/
def find : Str → Str → Option Nat
  | [], search => if search = [] then some 0 else none
  | c :: cs, search =>
    if search.isPrefixOf (c :: cs) then some 0
    else (find cs search).map (· + 1)

/-- The boost::replace_first call: the first occurrence of `search` in `input`
is replaced by `format`; `input` is returned as it is when there is none. -/
def replace_first : Str → Str → Str → Str
  | [], search, format => if search = [] then format else []
  | c :: cs, search, format =>
    if search.isPrefixOf (c :: cs) then format ++ (c :: cs).drop search.length
    else c :: replace_first cs search format

/-! ## Data model -/

/-- The model types (SIM_MODEL::TYPE). The enumerators that the sources name are
listed; `OTHER n` stands for the remaining enumerators of the enumeration. -/
inductive SIM_MODEL.TYPE where
  | R | C | L
  | R_BEHAVIORAL | C_BEHAVIORAL | L_BEHAVIORAL | V_BEHAVIORAL | I_BEHAVIORAL
  | KIBIS_DEVICE | KIBIS_DRIVER
  | OTHER (n : Nat)
  deriving DecidableEq, Repr

/-- The device types (SIM_MODEL::DEVICE_TYPE_), by the number of the enumerator. -/
abbrev DEVICE_TYPE_ := Nat

/-- What DeviceTypeInfo returns for a device type. -/
structure DEVICE_INFO where
  fieldValue : Str
  description : Str
  deriving DecidableEq, Repr

/-- The value types (SIM_VALUE::TYPE). -/
inductive SIM_VALUE.TYPE where
  | TYPE_BOOL | TYPE_INT | TYPE_FLOAT | TYPE_COMPLEX | TYPE_STRING
  | TYPE_BOOL_VECTOR | TYPE_INT_VECTOR | TYPE_FLOAT_VECTOR | TYPE_COMPLEX_VECTOR
  deriving DecidableEq, Repr

/-- The notations of SIM_VALUE::ToString: `SPICE` is the one the sources name,
`DEFAULT` the one ToString() uses when it is called without an argument. -/
inductive SIM_VALUE.NOTATION where
  | DEFAULT | SPICE
  deriving DecidableEq, Repr

/-- The parameter categories (SIM_MODEL::PARAM::CATEGORY). -/
inductive CATEGORY where
  | PRINCIPAL | AC | DC | CAPACITANCE | TEMPERATURE | NOISE
  | DISTRIBUTED_QUANTITIES | WAVEFORM | GEOMETRY | LIMITING_VALUES
  | ADVANCED | FLAGS | INITIAL_CONDITIONS | SUPERFLUOUS
  deriving DecidableEq, Repr

/-- The directions of a parameter (SIM_MODEL::PARAM::DIR). The enumerator that
the sources name is listed; `OTHER n` stands for the remaining enumerators. -/
inductive PARAM.DIR where
  | DIR_OUT
  | OTHER (n : Nat)
  deriving DecidableEq, Repr

/-- The members of SIM_MODEL::PARAM::INFO that makeParams and makeParamInfo set,
and the direction `dir` that the dialog reads. makeParams and makeParamInfo
leave the direction value-initialised; that direction, which is not the output
direction, is `OTHER 0`. -/
structure PARAM.INFO where
  name : Str
  type : SIM_VALUE.TYPE
  unit : Str
  category : CATEGORY
  description : Str
  dir : PARAM.DIR := .OTHER 0
  deriving DecidableEq, Repr

/-- One live parameter (SIM_MODEL::PARAM). The SIM_VALUE it owns is kept as the
text it holds, of the value type `info.type`; the empty text is the unset value. -/
structure PARAM where
  info : PARAM.INFO
  value : Str
  deriving DecidableEq, Repr

/-- One model pin (SIM_MODEL::PIN). -/
structure PIN where
  name : Str
  symbolPinNumber : Str
  deriving DecidableEq, Repr

/-- The state of a SIM_MODEL_IDEAL or SIM_MODEL_BEHAVIORAL object: the type, the
parameters and pins of the SIM_MODEL base, and the m_isInferred member. -/
structure SIM_MODEL where
  type : SIM_MODEL.TYPE
  params : List PARAM
  pins : List PIN
  isInferred : Bool
  deriving DecidableEq, Repr

/-- A schematic or library field (SCH_FIELD, LIB_FIELD): its name and its text. -/
structure FIELD where
  name : Str
  text : Str
  deriving DecidableEq, Repr

/-- The failures of the error taxonomy. -/
inductive ERR where
  | IndexError | ValueParseError | FieldFormatError
  deriving DecidableEq, Repr

/-- A returned value together with the messages of the wxFAIL_MSG assertions
that were met on the way, in order. -/
structure Traced (α : Type) where
  failMsgs : List String
  val : α

/-- The declarations of the base classes that the sources use and that are not
part of them. -/
structure SIM_ENV where
  /-- The static SIM_MODEL::InferTypeFromRefAndValue heuristic. -/
  InferTypeFromRefAndValue : Str → Str → SIM_MODEL.TYPE
  /-- The device type of a model type (SIM_MODEL::GetDeviceType). -/
  GetDeviceType : SIM_MODEL.TYPE → DEVICE_TYPE_
  /-- The SIM_MODEL::DeviceTypeInfo table. -/
  DeviceTypeInfo : DEVICE_TYPE_ → DEVICE_INFO
  /-- The pins the SIM_MODEL base constructor creates for a model type. -/
  initialPins : SIM_MODEL.TYPE → List PIN
  /-- SIM_MODEL::ParsePinsField, on the pins of the model. -/
  ParsePinsField : Nat → Str → List PIN → Except ERR (List PIN)
  /-- The four-argument SPICE_GENERATOR::ItemLine of the base generator. -/
  ItemLine : SIM_MODEL → Str → Str → List Str → List Str → Str
  /-- SIM_VALUE::ToString for the value types other than string. -/
  render : SIM_VALUE.TYPE → SIM_VALUE.NOTATION → Str → Str
  /-- Whether a text parses as a value of a type other than string. -/
  parses : SIM_VALUE.TYPE → Str → Bool
  /-- The explicit decode SIM_MODEL::ReadDataSchFields / ReadDataLibFields. -/
  ReadDataFields : Nat → List FIELD → SIM_MODEL → Except ERR SIM_MODEL
  PARAMS_FIELD : Str
  PINS_FIELD : Str
  REFERENCE_FIELD : Str
  VALUE_FIELD : Str

/-! ## Base-class operations -/

/-- Modelled from the spec: SIM_MODEL::GetFieldValue is not in the sources. It is
the text of the first field of that name, and the empty text when there is none. -/
def GetFieldValue (aFields : List FIELD) (aFieldName : Str) : Str :=
  match aFields.find? (fun f => f.name = aFieldName) with
  | some f => f.text
  | none => []

/-- Modelled from the spec: SIM_MODEL::GetParam is not in the sources. It is the
bounds-checked accessor; an index out of range fails with an IndexError. -/
def GetParam (m : SIM_MODEL) (aParamIndex : Nat) : Except ERR PARAM :=
  match m.params.get? aParamIndex with
  | some p => .ok p
  | none => .error .IndexError

/-- Modelled from the spec: SIM_VALUE::ToString is not in the sources. A string
value is a free-form text and renders to the text it holds; the other value
types go through the renderer of the environment. -/
def SIM_VALUE.ToString (env : SIM_ENV) (p : PARAM) (aNotation : SIM_VALUE.NOTATION) : Str :=
  if p.info.type = .TYPE_STRING then p.value else env.render p.info.type aNotation p.value

/-- Modelled from the spec: SIM_MODEL::SetParamValue is not in the sources. The
index is bounds-checked; a text that does not parse under the declared type
fails with a ValueParseError (a string parameter takes any text); on success
the value is stored and the inferred flag is cleared. -/
def SetParamValue (env : SIM_ENV) (m : SIM_MODEL) (aParamIndex : Nat) (aValue : Str) :
    Except ERR SIM_MODEL :=
  match m.params.get? aParamIndex with
  | none => .error .IndexError
  | some p =>
    if p.info.type = .TYPE_STRING || env.parses p.info.type aValue then
      .ok { m with params := m.params.set aParamIndex { p with value := aValue },
                   isInferred := false }
    else .error .ValueParseError

/-- Modelled from the spec: SIM_MODEL::AddParam is not in the sources. The new
parameter is appended with its value unset. -/
def AddParam (m : SIM_MODEL) (aInfo : PARAM.INFO) : SIM_MODEL :=
  { m with params := m.params ++ [{ info := aInfo, value := [] }] }

/-! ## sim_model_ideal.cpp -/

/-- SPICE_GENERATOR_IDEAL::ModelLine. -/
def SPICE_GENERATOR_IDEAL.ModelLine (_m : SIM_MODEL) (_aModelName : Str) : Str := []

/-- SPICE_GENERATOR_IDEAL::ItemLine. -/
def SPICE_GENERATOR_IDEAL.ItemLine (env : SIM_ENV) (m : SIM_MODEL) (aRefName : Str)
    (_aModelName : Str) (aSymbolPinNumbers : List Str) (aPinNetNames : List Str) :
    Except ERR Str :=
  match GetParam m 0 with
  | .error e => .error e
  | .ok p =>
    let valueStr := SIM_VALUE.ToString env p .SPICE
    if valueStr ≠ [] then
      .ok (env.ItemLine m aRefName valueStr aSymbolPinNumbers aPinNetNames)
    else
      .ok []

/-- SIM_MODEL_IDEAL::makeParamInfo. -/
def SIM_MODEL_IDEAL.makeParamInfo (aName aDescription aUnit : Str) : PARAM.INFO :=
  { name := aName, type := .TYPE_FLOAT, unit := aUnit, category := .PRINCIPAL,
    description := aDescription }

/-- The constructor SIM_MODEL_IDEAL::SIM_MODEL_IDEAL. -/
def SIM_MODEL_IDEAL.new (env : SIM_ENV) (aType : SIM_MODEL.TYPE) : Traced SIM_MODEL :=
  let base : SIM_MODEL :=
    { type := aType, params := [], pins := env.initialPins aType, isInferred := false }
  let resistor := SIM_MODEL_IDEAL.makeParamInfo "r".toList "Resistance".toList "Ω".toList
  let capacitor := SIM_MODEL_IDEAL.makeParamInfo "c".toList "Capacitance".toList "F".toList
  let inductor := SIM_MODEL_IDEAL.makeParamInfo "l".toList "Inductance".toList "H".toList
  match aType with
  | .R => ⟨[], AddParam base resistor⟩
  | .C => ⟨[], AddParam base capacitor⟩
  | .L => ⟨[], AddParam base inductor⟩
  | _ => ⟨["Unhandled SIM_MODEL type in SIM_MODEL_IDEAL"], base⟩

/-! ## sim_model_behavioral.cpp -/

/-- SPICE_GENERATOR_BEHAVIORAL::ModelLine. -/
def SPICE_GENERATOR_BEHAVIORAL.ModelLine (_m : SIM_MODEL) (_aModelName : Str) : Str := []

/-- SPICE_GENERATOR_BEHAVIORAL::ItemLine. -/
def SPICE_GENERATOR_BEHAVIORAL.ItemLine (env : SIM_ENV) (m : SIM_MODEL) (aRefName : Str)
    (_aModelName : Str) (aSymbolPinNumbers : List Str) (aPinNetNames : List Str) :
    Traced (Except ERR Str) :=
  match m.type with
  | .R_BEHAVIORAL | .C_BEHAVIORAL | .L_BEHAVIORAL =>
    match GetParam m 0 with
    | .error e => ⟨[], .error e⟩
    | .ok p =>
      ⟨[], .ok (env.ItemLine m aRefName (SIM_VALUE.ToString env p .DEFAULT)
                  aSymbolPinNumbers aPinNetNames)⟩
  | .V_BEHAVIORAL =>
    match GetParam m 0 with
    | .error e => ⟨[], .error e⟩
    | .ok p =>
      ⟨[], .ok (env.ItemLine m aRefName ("V=".toList ++ SIM_VALUE.ToString env p .DEFAULT)
                  aSymbolPinNumbers aPinNetNames)⟩
  | .I_BEHAVIORAL =>
    match GetParam m 0 with
    | .error e => ⟨[], .error e⟩
    | .ok p =>
      ⟨[], .ok (env.ItemLine m aRefName ("I=".toList ++ SIM_VALUE.ToString env p .DEFAULT)
                  aSymbolPinNumbers aPinNetNames)⟩
  | _ => ⟨["Unhandled SIM_MODEL type in SIM_MODEL_BEHAVIORAL"], .ok []⟩

/-- SIM_MODEL_BEHAVIORAL::makeParams. -/
def SIM_MODEL_BEHAVIORAL.makeParams (aName aDescription aUnit : Str) : PARAM.INFO :=
  { name := aName, type := .TYPE_STRING, unit := aUnit, category := .PRINCIPAL,
    description := aDescription }

/-- The constructor SIM_MODEL_BEHAVIORAL::SIM_MODEL_BEHAVIORAL. -/
def SIM_MODEL_BEHAVIORAL.new (env : SIM_ENV) (aType : SIM_MODEL.TYPE) : Traced SIM_MODEL :=
  let base : SIM_MODEL :=
    { type := aType, params := [], pins := env.initialPins aType, isInferred := false }
  let resistor := SIM_MODEL_BEHAVIORAL.makeParams "r".toList
    "Expression for resistance".toList "Ω".toList
  let capacitor := SIM_MODEL_BEHAVIORAL.makeParams "c".toList
    "Expression for capacitance".toList "F".toList
  let inductor := SIM_MODEL_BEHAVIORAL.makeParams "l".toList
    "Expression for inductance".toList "H".toList
  let vsource := SIM_MODEL_BEHAVIORAL.makeParams "v".toList
    "Expression for voltage".toList "V".toList
  let isource := SIM_MODEL_BEHAVIORAL.makeParams "i".toList
    "Expression for current".toList "A".toList
  match aType with
  | .R_BEHAVIORAL => ⟨[], AddParam base resistor⟩
  | .C_BEHAVIORAL => ⟨[], AddParam base capacitor⟩
  | .L_BEHAVIORAL => ⟨[], AddParam base inductor⟩
  | .V_BEHAVIORAL => ⟨[], AddParam base vsource⟩
  | .I_BEHAVIORAL => ⟨[], AddParam base isource⟩
  | _ => ⟨["Unhandled SIM_MODEL type in SIM_MODEL_IDEAL"], base⟩

/-- SIM_MODEL_BEHAVIORAL::parseValueField: the returned flag and the model after
the call. -/
def SIM_MODEL_BEHAVIORAL.parseValueField (env : SIM_ENV) (m : SIM_MODEL) (aValueField : Str) :
    Except ERR (Bool × SIM_MODEL) :=
  let expr := aValueField
  if find expr "=".toList = none then
    .ok (false, m)
  else
    let expr := replace_first expr "=".toList "".toList
    match SetParamValue env m 0 (trim_copy expr) with
    | .error e => .error e
    | .ok m1 => .ok (true, m1)

/-- SIM_MODEL_BEHAVIORAL::inferredReadDataFields. The condition is evaluated
left to right with the short circuits of `&&` and `||`: parseValueField runs
only when the inferred type is the type of the model. -/
def SIM_MODEL_BEHAVIORAL.inferredReadDataFields (env : SIM_ENV) (m : SIM_MODEL)
    (aSymbolPinCount : Nat) (aFields : List FIELD) : Except ERR SIM_MODEL :=
  match env.ParsePinsField aSymbolPinCount (GetFieldValue aFields env.PINS_FIELD) m.pins with
  | .error e => .error e
  | .ok pins =>
    let m0 : SIM_MODEL := { m with pins := pins }
    let isMarker : Bool :=
      GetFieldValue aFields env.VALUE_FIELD
        = (env.DeviceTypeInfo (env.GetDeviceType m0.type)).fieldValue
    if env.InferTypeFromRefAndValue (GetFieldValue aFields env.REFERENCE_FIELD)
         (GetFieldValue aFields env.VALUE_FIELD) = m0.type then
      match SIM_MODEL_BEHAVIORAL.parseValueField env m0 (GetFieldValue aFields env.VALUE_FIELD) with
      | .error e => .error e
      | .ok (parsed, m1) =>
        if parsed || isMarker then .ok { m1 with isInferred := true } else .ok m1
    else
      if isMarker then .ok { m0 with isInferred := true } else .ok m0

/-- SIM_MODEL_BEHAVIORAL::ReadDataSchFields. -/
def SIM_MODEL_BEHAVIORAL.ReadDataSchFields (env : SIM_ENV) (m : SIM_MODEL)
    (aSymbolPinCount : Nat) (aFields : List FIELD) : Except ERR SIM_MODEL :=
  if GetFieldValue aFields env.PARAMS_FIELD ≠ [] then
    env.ReadDataFields aSymbolPinCount aFields m
  else
    SIM_MODEL_BEHAVIORAL.inferredReadDataFields env m aSymbolPinCount aFields

/-- SIM_MODEL_BEHAVIORAL::ReadDataLibFields. -/
def SIM_MODEL_BEHAVIORAL.ReadDataLibFields (env : SIM_ENV) (m : SIM_MODEL)
    (aSymbolPinCount : Nat) (aFields : List FIELD) : Except ERR SIM_MODEL :=
  if GetFieldValue aFields env.PARAMS_FIELD ≠ [] then
    env.ReadDataFields aSymbolPinCount aFields m
  else
    SIM_MODEL_BEHAVIORAL.inferredReadDataFields env m aSymbolPinCount aFields

/-! ## A concrete environment

The definitions below give one instance of `SIM_ENV`, used to evaluate the
embedded functions at concrete inputs. -/

/-- Modelled from the spec: the four-argument SPICE_GENERATOR::ItemLine of the
base generator is not in the sources. The line holds the component reference,
then the net name of each symbol pin, in pin order, then the value, each
preceded by a blank. -/
def SPICE_GENERATOR.ItemLine (_m : SIM_MODEL) (aRefName aModelName : Str)
    (aSymbolPinNumbers aPinNetNames : List Str) : Str :=
  aRefName ++ ((aSymbolPinNumbers.zip aPinNetNames).map (fun x => ' ' :: x.2)).flatten
    ++ ' ' :: aModelName

/-- Modelled from the spec: SIM_MODEL::InferTypeFromRefAndValue is not in the
sources. The rows of its table for the reference letters R, C, L, V and I: a
value that contains "=" gives the behavioral type of the letter, any other
value the ideal type (none for the sources V and I). -/
def InferTypeFromRefAndValue (aRef aValue : Str) : SIM_MODEL.TYPE :=
  match aRef.head? with
  | some 'R' => if '=' ∈ aValue then .R_BEHAVIORAL else .R
  | some 'C' => if '=' ∈ aValue then .C_BEHAVIORAL else .C
  | some 'L' => if '=' ∈ aValue then .L_BEHAVIORAL else .L
  | some 'V' => if '=' ∈ aValue then .V_BEHAVIORAL else .OTHER 0
  | some 'I' => if '=' ∈ aValue then .I_BEHAVIORAL else .OTHER 0
  | _ => .OTHER 0

/-- Modelled from the spec: SIM_MODEL::GetDeviceType is not in the sources. Each
model type has one device type and the ideal and the behavioral type of one
letter share theirs: 1 resistor, 2 capacitor, 3 inductor, 4 voltage source,
5 current source, 0 for the other model types. -/
def GetDeviceType : SIM_MODEL.TYPE → DEVICE_TYPE_
  | .R | .R_BEHAVIORAL => 1
  | .C | .C_BEHAVIORAL => 2
  | .L | .L_BEHAVIORAL => 3
  | .V_BEHAVIORAL => 4
  | .I_BEHAVIORAL => 5
  | _ => 0

/-- Modelled from the spec: SIM_MODEL::DeviceTypeInfo is not in the sources. The
marker text of a device type is its letter ("R" for a resistor). -/
def DeviceTypeInfo : DEVICE_TYPE_ → DEVICE_INFO
  | 1 => ⟨"R".toList, "Resistor".toList⟩
  | 2 => ⟨"C".toList, "Capacitor".toList⟩
  | 3 => ⟨"L".toList, "Inductor".toList⟩
  | 4 => ⟨"V".toList, "Voltage Source".toList⟩
  | 5 => ⟨"I".toList, "Current Source".toList⟩
  | _ => ⟨[], [] ⟩

/-- The two pins of a two-terminal model, both unassigned. -/
def twoPins : List PIN := [⟨"+".toList, []⟩, ⟨"-".toList, []⟩]

/-- A concrete environment: the definitions above; pins that stay as they are
when the pins field is read; values that render to the text they hold and
numbers that parse when they start with a digit; an explicit decode that
changes nothing. -/
def refEnv : SIM_ENV where
  InferTypeFromRefAndValue := InferTypeFromRefAndValue
  GetDeviceType := GetDeviceType
  DeviceTypeInfo := DeviceTypeInfo
  initialPins := fun _ => twoPins
  ParsePinsField := fun _ _ pins => .ok pins
  ItemLine := SPICE_GENERATOR.ItemLine
  render := fun _ _ s => s
  parses := fun _ s => (s.head?.map Char.isDigit).getD true
  ReadDataFields := fun _ _ m => .ok m
  PARAMS_FIELD := "Sim_Params".toList
  PINS_FIELD := "Sim_Pins".toList
  REFERENCE_FIELD := "Reference".toList
  VALUE_FIELD := "Value".toList

/-- The five model types of SIM_MODEL_BEHAVIORAL. -/
def isBehavioral (t : SIM_MODEL.TYPE) : Bool :=
  t = .R_BEHAVIORAL || t = .C_BEHAVIORAL || t = .L_BEHAVIORAL
    || t = .V_BEHAVIORAL || t = .I_BEHAVIORAL

/-- An ideal resistor with r = "1k". -/
def idealR1k : SIM_MODEL :=
  { type := .R,
    params := [{ info := SIM_MODEL_IDEAL.makeParamInfo "r".toList "Resistance".toList "Ω".toList,
                 value := "1k".toList }],
    pins := [⟨"+".toList, "1".toList⟩, ⟨"-".toList, "2".toList⟩],
    isInferred := false }

/-- A behavioral voltage source with v = "SIN(0 5 1k)". -/
def behavioralVSin : SIM_MODEL :=
  { type := .V_BEHAVIORAL,
    params := [{ info := SIM_MODEL_BEHAVIORAL.makeParams "v".toList
                           "Expression for voltage".toList "V".toList,
                 value := "SIN(0 5 1k)".toList }],
    pins := [⟨"+".toList, "1".toList⟩, ⟨"-".toList, "2".toList⟩],
    isInferred := false }

/-! ## Decode of the ideal model and encode of both models -/

/-- The member functions of the SIM_MODEL base class that the encode of the two
models calls and that are not part of the sources, next to the declarations of
`SIM_ENV`. -/
structure SIM_BASE extends SIM_ENV where
  /-- The explicit encode SIM_MODEL::WriteDataSchFields / WriteDataLibFields. -/
  WriteDataFields : SIM_MODEL → List FIELD → List FIELD
  /-- SIM_MODEL::WriteInferredDataFields, with the value text it is given. -/
  WriteInferredDataFields : SIM_MODEL → List FIELD → Str → List FIELD

/-- SIM_MODEL_IDEAL::ReadDataSchFields. The inference
SIM_MODEL::InferredReadDataFields of the base class, which is not part of the
sources, is the argument `InferredReadDataFields`; it is called with the two
flags true and false. -/
def SIM_MODEL_IDEAL.ReadDataSchFields (env : SIM_ENV)
    (InferredReadDataFields : Nat → List FIELD → Bool → Bool → SIM_MODEL → Except ERR SIM_MODEL)
    (m : SIM_MODEL) (aSymbolPinCount : Nat) (aFields : List FIELD) : Except ERR SIM_MODEL :=
  if GetFieldValue aFields env.PARAMS_FIELD ≠ [] then
    env.ReadDataFields aSymbolPinCount aFields m
  else
    InferredReadDataFields aSymbolPinCount aFields true false m

/-- SIM_MODEL_IDEAL::ReadDataLibFields. -/
def SIM_MODEL_IDEAL.ReadDataLibFields (env : SIM_ENV)
    (InferredReadDataFields : Nat → List FIELD → Bool → Bool → SIM_MODEL → Except ERR SIM_MODEL)
    (m : SIM_MODEL) (aSymbolPinCount : Nat) (aFields : List FIELD) : Except ERR SIM_MODEL :=
  if GetFieldValue aFields env.PARAMS_FIELD ≠ [] then
    env.ReadDataFields aSymbolPinCount aFields m
  else
    InferredReadDataFields aSymbolPinCount aFields true false m

/-- SIM_MODEL_IDEAL::inferredWriteDataFields. -/
def SIM_MODEL_IDEAL.inferredWriteDataFields (env : SIM_BASE) (m : SIM_MODEL)
    (aFields : List FIELD) : Except ERR (List FIELD) :=
  match GetParam m 0 with
  | .error e => .error e
  | .ok p =>
    let value := SIM_VALUE.ToString env.toSIM_ENV p .DEFAULT
    let value :=
      if value = [] then (env.DeviceTypeInfo (env.GetDeviceType m.type)).fieldValue else value
    .ok (env.WriteInferredDataFields m aFields value)

/-- SIM_MODEL_IDEAL::WriteDataSchFields. -/
def SIM_MODEL_IDEAL.WriteDataSchFields (env : SIM_BASE) (m : SIM_MODEL)
    (aFields : List FIELD) : Except ERR (List FIELD) :=
  let aFields := env.WriteDataFields m aFields
  if m.isInferred then SIM_MODEL_IDEAL.inferredWriteDataFields env m aFields
  else .ok aFields

/-- SIM_MODEL_IDEAL::WriteDataLibFields. -/
def SIM_MODEL_IDEAL.WriteDataLibFields (env : SIM_BASE) (m : SIM_MODEL)
    (aFields : List FIELD) : Except ERR (List FIELD) :=
  let aFields := env.WriteDataFields m aFields
  if m.isInferred then SIM_MODEL_IDEAL.inferredWriteDataFields env m aFields
  else .ok aFields

/-- Modelled from the spec: SIM_MODEL::GetDeviceTypeInfo is not in the sources.
A model type has one device type; its information is the entry of that device
type in the DeviceTypeInfo table. -/
def GetDeviceTypeInfo (env : SIM_ENV) (m : SIM_MODEL) : DEVICE_INFO :=
  env.DeviceTypeInfo (env.GetDeviceType m.type)

/-- SIM_MODEL_BEHAVIORAL::inferredWriteDataFields. -/
def SIM_MODEL_BEHAVIORAL.inferredWriteDataFields (env : SIM_BASE) (m : SIM_MODEL)
    (aFields : List FIELD) : Except ERR (List FIELD) :=
  match GetParam m 0 with
  | .error e => .error e
  | .ok p =>
    let value := SIM_VALUE.ToString env.toSIM_ENV p .DEFAULT
    let value := if value = [] then (GetDeviceTypeInfo env.toSIM_ENV m).fieldValue else value
    .ok (env.WriteInferredDataFields m aFields ("=".toList ++ value))

/-- SIM_MODEL_BEHAVIORAL::WriteDataSchFields. -/
def SIM_MODEL_BEHAVIORAL.WriteDataSchFields (env : SIM_BASE) (m : SIM_MODEL)
    (aFields : List FIELD) : Except ERR (List FIELD) :=
  let aFields := env.WriteDataFields m aFields
  if m.isInferred then SIM_MODEL_BEHAVIORAL.inferredWriteDataFields env m aFields
  else .ok aFields

/-- SIM_MODEL_BEHAVIORAL::WriteDataLibFields. -/
def SIM_MODEL_BEHAVIORAL.WriteDataLibFields (env : SIM_BASE) (m : SIM_MODEL)
    (aFields : List FIELD) : Except ERR (List FIELD) :=
  let aFields := env.WriteDataFields m aFields
  if m.isInferred then SIM_MODEL_BEHAVIORAL.inferredWriteDataFields env m aFields
  else .ok aFields

/-- Modelled from the spec: SIM_MODEL::SetFieldValue is not in the sources. The
text of the fields of that name is replaced; a field of that name is added at
the end when there is none. -/
def SetFieldValue (aFields : List FIELD) (aFieldName aValue : Str) : List FIELD :=
  if aFields.any (fun f => f.name = aFieldName) then
    aFields.map (fun f => if f.name = aFieldName then { f with text := aValue } else f)
  else aFields ++ [⟨aFieldName, aValue⟩]

/-- A concrete instance of the base class over `refEnv`: the explicit encode
writes the pins field from the symbol pin numbers of the model, each followed
by a blank; the inferred encode writes the Value field. -/
def refBase : SIM_BASE where
  toSIM_ENV := refEnv
  WriteDataFields := fun m fs =>
    SetFieldValue fs refEnv.PINS_FIELD (m.pins.map (fun p => p.symbolPinNumber ++ [' '])).flatten
  WriteInferredDataFields := fun _ fs v => SetFieldValue fs refEnv.VALUE_FIELD v

/-! ## dialog_sim_model.cpp: the pin assignments

The functions of DIALOG_SIM_MODEL take the current model `curModel()` and the
member `m_sortedSymbolPins` as arguments; the columns of `m_pinAssignmentsGrid`
are the value they build. -/

/-- A pin of the symbol (LIB_PIN), by what its accessors GetNumber,
GetShownNumber and GetShownName return. -/
structure LIB_PIN where
  number : Str
  shownNumber : Str
  shownName : Str
  deriving DecidableEq, Repr

/-- The declarations outside the sources that the pin functions of the dialog
use. -/
structure DIALOG_ENV where
  /-- The sentinel SIM_MODEL::PIN::NOT_CONNECTED. -/
  NOT_CONNECTED : Int
  /-- The translation `_( )` of a message in the catalogue in use. -/
  translate : Str → Str

/-- The pin assignments grid: the Symbol column, the Model column, and the
choices of the cell editor of each row. -/
structure PIN_GRID where
  symbolColumn : List Str
  modelColumn : List Str
  choices : List (List Str)
  deriving DecidableEq, Repr

/-- Modelled from the spec: SIM_MODEL::GetPin is not in the sources. It is the
accessor of the pin of an index; an index out of range fails with an
IndexError. -/
def GetPin (m : SIM_MODEL) (aPinIndex : Int) : Except ERR PIN :=
  if 0 ≤ aPinIndex then
    match m.pins.get? aPinIndex.toNat with
    | some p => .ok p
    | none => .error .IndexError
  else .error .IndexError

/-- Modelled from the spec: SIM_MODEL::SetPinSymbolPinNumber is not in the
sources. It writes the symbol pin number of the pin of an index, the only
mutable member of a pin; an index out of range fails with an IndexError. -/
def SetPinSymbolPinNumber (m : SIM_MODEL) (aPinIndex : Int) (aSymbolPinNumber : Str) :
    Except ERR SIM_MODEL :=
  if 0 ≤ aPinIndex then
    match m.pins.get? aPinIndex.toNat with
    | some p =>
      .ok { m with pins := m.pins.set aPinIndex.toNat { p with symbolPinNumber := aSymbolPinNumber } }
    | none => .error .IndexError
  else .error .IndexError

/-- The decimal digits of a number, most significant first; `fuel` bounds the
number of digits, and one more than the number is enough. -/
def decimalDigits : Nat → Nat → List Char
  | 0, _ => []
  | fuel + 1, n =>
    if n < 10 then [Char.ofNat (48 + n)]
    else decimalDigits fuel (n / 10) ++ [Char.ofNat (48 + n % 10)]

/-- The text wxString::Format prints for the conversion "%d". -/
def Format_d (n : Int) : Str :=
  if n < 0 then '-' :: decimalDigits (n.natAbs + 1) n.natAbs
  else decimalDigits (n.toNat + 1) n.toNat

/-- The conversion of a 64-bit long to int by static_cast. -/
def toInt32 (x : Int) : Int := (x + 2 ^ 31) % 2 ^ 32 - 2 ^ 31

/-- The call wxString::ToCLong on a variable that holds 0: the value the
variable holds afterwards. The text is read as strtol reads it in base 10:
leading whitespace, an optional sign, then digits; what follows the digits is
ignored. The variable keeps its 0 when there is no digit or when the number
does not fit a 64-bit long. -/
def ToCLong (s : Str) : Int :=
  let s1 := s.dropWhile isSpace
  let negative := s1.head? = some '-'
  let s2 := if s1.head? = some '-' ∨ s1.head? = some '+' then s1.tail else s1
  let digits := s2.takeWhile Char.isDigit
  if digits = [] then 0
  else
    let v : Nat := digits.foldl (fun acc c => acc * 10 + (c.toNat - 48)) 0
    let val : Int := if negative then -(v : Int) else (v : Int)
    if val < -(2 ^ 63) ∨ 2 ^ 63 - 1 < val then 0 else val

/-- The label of the model pin of an index with a pin name, as getModelPinString
formats it. -/
def modelPinLabel (aModelPinIndex : Int) (pinName : Str) : Str :=
  if pinName = [] then Format_d (aModelPinIndex + 1)
  else Format_d (aModelPinIndex + 1) ++ " (".toList ++ pinName ++ ")".toList

/-- DIALOG_SIM_MODEL::getModelPinString. -/
def getModelPinString (m : SIM_MODEL) (aModelPinIndex : Int) : Except ERR Str :=
  match GetPin m aModelPinIndex with
  | .error e => .error e
  | .ok pin => .ok (modelPinLabel aModelPinIndex pin.name)

/-- DIALOG_SIM_MODEL::getModelPinIndex. -/
def getModelPinIndex (denv : DIALOG_ENV) (aModelPinString : Str) : Int :=
  if aModelPinString = "Not Connected".toList then denv.NOT_CONNECTED
  else
    let length : Nat :=
      match find aModelPinString " ".toList with
      | some k => k
      | none => aModelPinString.length
    let result := ToCLong (aModelPinString.take length)
    toInt32 (result - 1)

/-- DIALOG_SIM_MODEL::getModelPinChoices: the labels of the model pins without a
symbol pin number, in pin order, then the translated "Not Connected". -/
def getModelPinChoices (denv : DIALOG_ENV) (m : SIM_MODEL) : List Str :=
  (m.pins.enum.filterMap (fun ip =>
      if ip.2.symbolPinNumber ≠ [] then none
      else some (modelPinLabel (ip.1 : Int) ip.2.name)))
    ++ [denv.translate "Not Connected".toList]

/-- DIALOG_SIM_MODEL::findSymbolPinRow. -/
def findSymbolPinRow (m_sortedSymbolPins : List LIB_PIN) (aSymbolPinNumber : Str) : Int :=
  match m_sortedSymbolPins.findIdx? (fun pin => pin.number = aSymbolPinNumber) with
  | some row => (row : Int)
  | none => -1

/-- DIALOG_SIM_MODEL::getSymbolPinString, for a pin of the symbol. -/
def getSymbolPinString (pin : LIB_PIN) : Str :=
  if pin.shownName = [] then pin.shownNumber
  else pin.shownNumber ++ " (".toList ++ pin.shownName ++ ")".toList

/-- The loop of DIALOG_SIM_MODEL::removeOrphanedPinAssignments from the model pin
of index `i` on; `fuel` bounds the rounds left, and the pin count is enough. -/
def removeOrphanedPinAssignments.loop (m_sortedSymbolPins : List LIB_PIN) :
    Nat → Nat → SIM_MODEL → Except ERR SIM_MODEL
  | 0, _, m => .ok m
  | fuel + 1, i, m =>
    if i < m.pins.length then
      match GetPin m (i : Int) with
      | .error e => .error e
      | .ok modelPin =>
        let isOrphaned : Bool :=
          !(m_sortedSymbolPins.any (fun symbolPin => modelPin.symbolPinNumber = symbolPin.number))
        match (if isOrphaned then SetPinSymbolPinNumber m (i : Int) [] else .ok m) with
        | .error e => .error e
        | .ok m1 => removeOrphanedPinAssignments.loop m_sortedSymbolPins fuel (i + 1) m1
    else .ok m

/-- DIALOG_SIM_MODEL::removeOrphanedPinAssignments. -/
def removeOrphanedPinAssignments (m_sortedSymbolPins : List LIB_PIN) (m : SIM_MODEL) :
    Except ERR SIM_MODEL :=
  removeOrphanedPinAssignments.loop m_sortedSymbolPins m.pins.length 0 m

/-- The call wxGrid::SetCellValue on one column: the cell of the row is written;
a row outside the grid is not written. -/
def SetCellValue (column : List Str) (row : Int) (s : Str) : List Str :=
  if 0 ≤ row ∧ row.toNat < column.length then column.set row.toNat s else column

/-- DIALOG_SIM_MODEL::updatePinAssignments: the model after the orphaned
assignments are removed, and the grid that is built from it. -/
def updatePinAssignments (denv : DIALOG_ENV) (m_sortedSymbolPins : List LIB_PIN)
    (m : SIM_MODEL) : Except ERR (SIM_MODEL × PIN_GRID) :=
  match removeOrphanedPinAssignments m_sortedSymbolPins m with
  | .error e => .error e
  | .ok m1 =>
    let cleared : List Str :=
      List.replicate m_sortedSymbolPins.length "Not Connected".toList
    let modelColumn : List Str :=
      m1.pins.enum.foldl (fun column ip =>
        if ip.2.symbolPinNumber = [] then column
        else SetCellValue column (findSymbolPinRow m_sortedSymbolPins ip.2.symbolPinNumber)
          (modelPinLabel (ip.1 : Int) ip.2.name)) cleared
    let modelPinChoices := getModelPinChoices denv m1
    .ok (m1,
      { symbolColumn := m_sortedSymbolPins.map getSymbolPinString,
        modelColumn := modelColumn,
        choices := modelColumn.map (fun curModelPinString =>
          if curModelPinString ≠ denv.translate "Not Connected".toList then
            curModelPinString :: modelPinChoices
          else modelPinChoices) })

/-- DIALOG_SIM_MODEL::onPinAssignmentsGridCellChange, for the event of the row
`aRow` whose Model cell held `aOldString` and now holds `aNewString`. -/
def onPinAssignmentsGridCellChange (denv : DIALOG_ENV) (m_sortedSymbolPins : List LIB_PIN)
    (m : SIM_MODEL) (aRow : Int) (aOldString aNewString : Str) :
    Except ERR (SIM_MODEL × PIN_GRID) :=
  let symbolPinIndex := aRow
  let oldModelPinIndex := getModelPinIndex denv aOldString
  let modelPinIndex := getModelPinIndex denv aNewString
  match (if oldModelPinIndex ≠ denv.NOT_CONNECTED then
           SetPinSymbolPinNumber m oldModelPinIndex []
         else .ok m) with
  | .error e => .error e
  | .ok m1 =>
    match (if modelPinIndex ≠ denv.NOT_CONNECTED then
             (if 0 ≤ symbolPinIndex then
                match m_sortedSymbolPins.get? symbolPinIndex.toNat with
                | some symbolPin => SetPinSymbolPinNumber m1 modelPinIndex symbolPin.shownNumber
                | none => .error .IndexError
              else .error .IndexError)
           else .ok m1) with
    | .error e => .error e
    | .ok m2 => updatePinAssignments denv m_sortedSymbolPins m2

/-- The symbol pin numbers of the model are unique: no two pins hold the same
non-empty symbol pin number. -/
def uniquePinNumbers (pins : List PIN) : Prop :=
  ∀ a b : Nat, ∀ pa pb : PIN, pins.get? a = some pa → pins.get? b = some pb → a ≠ b →
    pa.symbolPinNumber ≠ [] → pa.symbolPinNumber ≠ pb.symbolPinNumber

/-- What removeOrphanedPinAssignments does to one model pin: the pin stays when
its symbol pin number is the number of a pin of the symbol, and is unassigned
otherwise. -/
def reconciled (m_sortedSymbolPins : List LIB_PIN) (p : PIN) : PIN :=
  if m_sortedSymbolPins.any (fun symbolPin => p.symbolPinNumber = symbolPin.number) then p
  else { p with symbolPinNumber := [] }

/-- The dialog environment of an untranslated session, where the sentinel is -1. -/
def refDialog : DIALOG_ENV where
  NOT_CONNECTED := -1
  translate := fun s => s

/-- The three pins 1, 2, 3 of a symbol. -/
def threeSymbolPins : List LIB_PIN :=
  [⟨"1".toList, "1".toList, "A".toList⟩, ⟨"2".toList, "2".toList, "B".toList⟩,
   ⟨"3".toList, "3".toList, []⟩]

/-- A model with the pins "+" and "-", where "-" holds the symbol pin 3. -/
def pinsHeld : SIM_MODEL :=
  { type := .R, params := [],
    pins := [⟨"+".toList, []⟩, ⟨"-".toList, "3".toList⟩], isInferred := false }

/-- A model with three pins, where the third holds the number 9 of no pin of the
symbol. -/
def pinsOrphaned : SIM_MODEL :=
  { type := .R, params := [],
    pins := [⟨"+".toList, []⟩, ⟨"-".toList, "3".toList⟩, ⟨"x".toList, "9".toList⟩],
    isInferred := false }

/-! ## dialog_sim_model.cpp: the parameter grid -/

/-- An item of the parameter grid `m_paramGrid` at top level: a property, by the
index of the parameter newParamProperty made it for, or a category with its
label, whether it is hidden, and the properties in it. -/
inductive GRID_ITEM where
  | property (aParamIndex : Int)
  | category (label : Str) (hidden : Bool) (children : List Int)
  deriving DecidableEq, Repr

/-- Whether an item is the category of a label. -/
def GRID_ITEM.isCategory (label : Str) : GRID_ITEM → Bool
  | .property _ => false
  | .category l _ _ => l = label

/-- The first category of a label in the grid, which is the one a call that
names a category by its label acts on, is replaced by `f` of its state. -/
def modifyCategory (label : Str) (f : Bool → List Int → GRID_ITEM) :
    List GRID_ITEM → List GRID_ITEM
  | [] => []
  | .property k :: rest => .property k :: modifyCategory label f rest
  | .category l hidden children :: rest =>
    if l = label then f hidden children :: rest
    else .category l hidden children :: modifyCategory label f rest

/-- The call wxPropertyGridInterface::HideProperty on the label of a category. -/
def wxPropertyGrid.HideProperty (grid : List GRID_ITEM) (label : Str) (hide : Bool) : List GRID_ITEM :=
  modifyCategory label (fun _ children => .category label hide children) grid

/-- The call wxPropertyGridInterface::AppendIn on the label of a category: the
property becomes the last one in the category. -/
def wxPropertyGrid.AppendIn (grid : List GRID_ITEM) (label : Str) (aParamIndex : Int) : List GRID_ITEM :=
  modifyCategory label
    (fun hidden children => .category label hidden (children ++ [aParamIndex])) grid

/-- The call wxPropertyGridInterface::Insert before a category, given by its
label: the property is put at top level right before that category (at the end
when the grid has no such category). -/
def wxPropertyGrid.Insert (grid : List GRID_ITEM) (priorThis : Str) (aParamIndex : Int) : List GRID_ITEM :=
  match grid with
  | [] => [.property aParamIndex]
  | item :: rest =>
    if item.isCategory priorThis then .property aParamIndex :: item :: rest
    else item :: wxPropertyGrid.Insert rest priorThis aParamIndex

/-- The grid that updateModelParamsTab sets up before it adds the parameters:
the eleven categories, each appended and hidden, "Geometry" first. -/
def initialParamGrid : List GRID_ITEM :=
  [.category "Geometry".toList true [], .category "AC".toList true [],
   .category "DC".toList true [], .category "Capacitance".toList true [],
   .category "Temperature".toList true [], .category "Noise".toList true [],
   .category "Distributed Quantities".toList true [], .category "Waveform".toList true [],
   .category "Limiting Values".toList true [], .category "Advanced".toList true [],
   .category "Flags".toList true []]

/-- DIALOG_SIM_MODEL::addParamPropertyIfRelevant, on the grid `m_paramGrid`, with
the category `m_firstCategory` given by its label. -/
def addParamPropertyIfRelevant (m_firstCategory : Str) (m : SIM_MODEL)
    (m_paramGrid : List GRID_ITEM) (aParamIndex : Int) : Except ERR (List GRID_ITEM) :=
  if aParamIndex < 0 then .error .IndexError
  else
    match GetParam m aParamIndex.toNat with
    | .error e => .error e
    | .ok param =>
      if param.info.dir = .DIR_OUT then .ok m_paramGrid
      else
        match param.info.category with
        | .AC =>
          .ok (wxPropertyGrid.AppendIn (wxPropertyGrid.HideProperty m_paramGrid "AC".toList false) "AC".toList aParamIndex)
        | .DC =>
          .ok (wxPropertyGrid.AppendIn (wxPropertyGrid.HideProperty m_paramGrid "DC".toList false) "DC".toList aParamIndex)
        | .CAPACITANCE =>
          .ok (wxPropertyGrid.AppendIn (wxPropertyGrid.HideProperty m_paramGrid "Capacitance".toList false)
            "Capacitance".toList aParamIndex)
        | .TEMPERATURE =>
          .ok (wxPropertyGrid.AppendIn (wxPropertyGrid.HideProperty m_paramGrid "Temperature".toList false)
            "Temperature".toList aParamIndex)
        | .NOISE =>
          .ok (wxPropertyGrid.AppendIn (wxPropertyGrid.HideProperty m_paramGrid "Noise".toList false)
            "Noise".toList aParamIndex)
        | .DISTRIBUTED_QUANTITIES =>
          .ok (wxPropertyGrid.AppendIn (wxPropertyGrid.HideProperty m_paramGrid "Distributed Quantities".toList false)
            "Distributed Quantities".toList aParamIndex)
        | .WAVEFORM =>
          .ok (wxPropertyGrid.AppendIn (wxPropertyGrid.HideProperty m_paramGrid "Waveform".toList false)
            "Waveform".toList aParamIndex)
        | .GEOMETRY =>
          .ok (wxPropertyGrid.AppendIn (wxPropertyGrid.HideProperty m_paramGrid "Geometry".toList false)
            "Geometry".toList aParamIndex)
        | .LIMITING_VALUES =>
          .ok (wxPropertyGrid.AppendIn (wxPropertyGrid.HideProperty m_paramGrid "Limiting Values".toList false)
            "Limiting Values".toList aParamIndex)
        | .ADVANCED =>
          .ok (wxPropertyGrid.AppendIn (wxPropertyGrid.HideProperty m_paramGrid "Advanced".toList false)
            "Advanced".toList aParamIndex)
        | .FLAGS =>
          .ok (wxPropertyGrid.AppendIn (wxPropertyGrid.HideProperty m_paramGrid "Flags".toList false)
            "Flags".toList aParamIndex)
        | .INITIAL_CONDITIONS | .SUPERFLUOUS => .ok m_paramGrid
        | _ => .ok (wxPropertyGrid.Insert m_paramGrid m_firstCategory aParamIndex)

/-- The bucket of a category, as the classification rule names it: none for the
categories that are not presented, the top level for the principal category,
and the category of the grid named after the category otherwise. -/
inductive BUCKET where
  | none
  | topLevel
  | named (label : Str)
  deriving DecidableEq, Repr

/-- The classification rule: the bucket of a parameter of a direction and a
category. -/
def bucketOf (dir : PARAM.DIR) (category : CATEGORY) : BUCKET :=
  if dir = .DIR_OUT then .none
  else
    match category with
    | .INITIAL_CONDITIONS => .none
    | .SUPERFLUOUS => .none
    | .PRINCIPAL => .topLevel
    | .AC => .named "AC".toList
    | .DC => .named "DC".toList
    | .CAPACITANCE => .named "Capacitance".toList
    | .TEMPERATURE => .named "Temperature".toList
    | .NOISE => .named "Noise".toList
    | .DISTRIBUTED_QUANTITIES => .named "Distributed Quantities".toList
    | .WAVEFORM => .named "Waveform".toList
    | .GEOMETRY => .named "Geometry".toList
    | .LIMITING_VALUES => .named "Limiting Values".toList
    | .ADVANCED => .named "Advanced".toList
    | .FLAGS => .named "Flags".toList

/-- A model with a principal parameter, a parameter of the category AC, an output
parameter of the category DC and a superfluous parameter. -/
def fourParams : SIM_MODEL :=
  { type := .OTHER 1,
    params := [⟨{ name := "r".toList, type := .TYPE_FLOAT, unit := [], category := .PRINCIPAL,
                  description := [] }, []⟩,
               ⟨{ name := "ac".toList, type := .TYPE_FLOAT, unit := [], category := .AC,
                  description := [] }, []⟩,
               ⟨{ name := "i".toList, type := .TYPE_FLOAT, unit := [], category := .DC,
                  description := [], dir := .DIR_OUT }, []⟩,
               ⟨{ name := "x".toList, type := .TYPE_FLOAT, unit := [], category := .SUPERFLUOUS,
                  description := [] }, []⟩],
    pins := [], isInferred := false }

/-- A model with three pins: one named "+", one with the name "a 1" of a blank and
a digit, one without a name. -/
def pinLabels : SIM_MODEL :=
  { type := .R, params := [],
    pins := [⟨"+".toList, []⟩, ⟨"a 1".toList, []⟩, ⟨[], []⟩], isInferred := false }

/-! ## dialog_sim_model.cpp: the library models and the instance models

The members of DIALOG_SIM_MODEL that loadLibrary, curModelSharedPtr and
TransferDataToWindow read and write are the fields of `DIALOG`; a function of
the dialog takes the dialog and returns the dialog after the call. -/

/-- The two classes of library, SIM_LIBRARY_SPICE and SIM_LIBRARY_KIBIS. -/
inductive SIM_LIBRARY.KIND where
  | SPICE | KIBIS
  deriving DecidableEq, Repr

/-- Modelled from the spec: the class SIM_LIBRARY is not in the sources. A library
is an ordered collection of named base models, so GetModelNames and GetModels
have one length; it has the class it was made with and the path of its file. -/
structure SIM_LIBRARY where
  kind : SIM_LIBRARY.KIND
  entries : List (Str × SIM_MODEL)
  filePath : Str
  deriving DecidableEq, Repr

/-- Modelled from the spec: a library that has read no file (what
std::make_shared of a library class makes) has no entry. -/
def SIM_LIBRARY.new (kind : SIM_LIBRARY.KIND) : SIM_LIBRARY :=
  { kind := kind, entries := [], filePath := [] }

/-- The accessor SIM_LIBRARY::GetModels. -/
def SIM_LIBRARY.GetModels (library : SIM_LIBRARY) : List SIM_MODEL :=
  library.entries.map (fun entry => entry.2)

/-- The accessor SIM_LIBRARY::GetModelNames. -/
def SIM_LIBRARY.GetModelNames (library : SIM_LIBRARY) : List Str :=
  library.entries.map (fun entry => entry.1)

/-- A call of DisplayErrorMessage: for a library that could not be read, with
the path and the text of the IO_ERROR, or with the text of an IO_ERROR alone. -/
inductive MESSAGE where
  | libraryReadFailed (absolutePath : Str) (what : Str)
  | error (what : Str)
  deriving DecidableEq, Repr

/-- The state of the dialog: the fields and the sorted pins of the symbol, the
library and the models made from it, the models of the instance, one for each
model type, and the current model type; the text of the library path, the items
and the selection of the model name combobox (-1 is wxNOT_FOUND), the names its
validator includes, the radio button of the library model, whether the IBIS
widgets are shown, and the error messages displayed so far. -/
structure DIALOG where
  m_fields : List FIELD
  m_sortedSymbolPins : List LIB_PIN
  m_library : SIM_LIBRARY
  m_libraryModels : List SIM_MODEL
  m_models : List SIM_MODEL
  m_curModelType : SIM_MODEL.TYPE
  m_tclibraryPathName : Str
  m_modelNameCombobox : List Str
  m_modelNameSelection : Int
  m_modelNameValidator : List Str
  m_useLibraryModelRadioButton : Bool
  ibisMode : Bool
  messages : List MESSAGE
  deriving DecidableEq, Repr

/-- The declarations outside the sources that the library functions of the
dialog use. A function that throws an IO_ERROR returns its text as the error. -/
structure LIBRARY_ENV where
  /-- The call Prj().AbsolutePath. -/
  AbsolutePath : Str → Str
  /-- SIM_LIBRARY::ReadFile: the library after the file is read. A read that
  fails leaves the library as it was (the load is atomic). -/
  ReadFile : SIM_LIBRARY → Str → Except Str SIM_LIBRARY
  /-- SIM_MODEL::Create( aSymbolPinCount, aFields ). -/
  Create : Nat → List FIELD → Except Str SIM_MODEL
  /-- SIM_MODEL::Create( aBaseModel, aSymbolPinCount ). -/
  CreateFromBase : SIM_MODEL → Nat → Except Str SIM_MODEL
  /-- SIM_MODEL::Create( aBaseModel, aSymbolPinCount, aFields ). -/
  CreateFromBaseAndFields : SIM_MODEL → Nat → List FIELD → Except Str SIM_MODEL
  /-- SIM_MODEL::ReadTypeFromFields. -/
  ReadTypeFromFields : List FIELD → SIM_MODEL.TYPE
  /-- The number of a model type, static_cast to int. -/
  typeIndex : SIM_MODEL.TYPE → Nat
  /-- DIALOG_SIM_MODEL::IsIbisLoaded. -/
  IsIbisLoaded : DIALOG → Bool
  /-- The block of TransferDataToWindow that selects the pin and the model of a
  SIM_MODEL_KIBIS. -/
  selectIbisPin : DIALOG → Except ERR DIALOG
  /-- DIALOG_SIM_MODEL::updateWidgets. -/
  updateWidgets : DIALOG → Except ERR DIALOG
  /-- DIALOG_SIM_MODEL_BASE::TransferDataToWindow. -/
  BaseTransferDataToWindow : DIALOG → Bool
  LIBRARY_FIELD : Str
  NAME_FIELD : Str
  KIBIS_NAME_FIELD : Str

/-- The call std::vector::at with an int: the element of the index, and the
exception std::out_of_range, which no caller here catches, as IndexError. -/
def vectorAt (v : List SIM_MODEL) (index : Int) : Except ERR SIM_MODEL :=
  if 0 ≤ index then
    match v.get? index.toNat with
    | some x => .ok x
    | none => .error .IndexError
  else .error .IndexError

/-- DIALOG_SIM_MODEL::setIbisMode: the IBIS widgets are shown or hidden. -/
def setIbisMode (d : DIALOG) (aIbisMode : Bool) : DIALOG :=
  { d with ibisMode := aIbisMode }

/-- DIALOG_SIM_MODEL::curModelSharedPtr. -/
def curModelSharedPtr (env : LIBRARY_ENV) (d : DIALOG) : Except ERR SIM_MODEL :=
  if d.m_useLibraryModelRadioButton = true ∧ d.m_modelNameSelection ≠ -1 then
    vectorAt d.m_libraryModels d.m_modelNameSelection
  else
    vectorAt d.m_models (env.typeIndex d.m_curModelType : Int)

/-- The model that the loop of loadLibrary makes for one entry of the library:
from the base model and the fields when the name of the entry is the name in
the fields, from the base model alone otherwise. -/
def loadLibrary.createModel (env : LIBRARY_ENV) (d : DIALOG) (entry : Str × SIM_MODEL) :
    Except Str SIM_MODEL :=
  let baseModel := entry.2
  let baseModelName := entry.1
  let expectedModelName := GetFieldValue d.m_fields env.KIBIS_NAME_FIELD
  if baseModelName = expectedModelName then
    env.CreateFromBaseAndFields baseModel d.m_sortedSymbolPins.length d.m_fields
  else
    env.CreateFromBase baseModel d.m_sortedSymbolPins.length

/-- The loop of loadLibrary over the entries of the library that are left, with
the models pushed so far: the models at the end of the loop, and the text of the
IO_ERROR that ended it, if one did. -/
def loadLibrary.loop (env : LIBRARY_ENV) (d : DIALOG) :
    List (Str × SIM_MODEL) → List SIM_MODEL → List SIM_MODEL × Option Str
  | [], m_libraryModels => (m_libraryModels, none)
  | entry :: rest, m_libraryModels =>
    match loadLibrary.createModel env d entry with
    | .error what => (m_libraryModels, some what)
    | .ok model => loadLibrary.loop env d rest (m_libraryModels ++ [model])

/-- DIALOG_SIM_MODEL::loadLibrary. -/
def loadLibrary (env : LIBRARY_ENV) (d : DIALOG) (aFilePath : Str) : DIALOG :=
  let absolutePath := env.AbsolutePath aFilePath
  let d1 : DIALOG :=
    { d with m_library :=
        if ".ibs".toList.isSuffixOf absolutePath then SIM_LIBRARY.new .KIBIS
        else SIM_LIBRARY.new .SPICE }
  let d2 := setIbisMode d1 (env.IsIbisLoaded d1)
  match env.ReadFile d2.m_library absolutePath with
  | .error what =>
    { d2 with messages := d2.messages ++ [.libraryReadFailed absolutePath what] }
  | .ok library =>
    let d3 : DIALOG :=
      { d2 with m_library := library, m_tclibraryPathName := aFilePath, m_libraryModels := [] }
    let made := loadLibrary.loop env d3 d3.m_library.entries d3.m_libraryModels
    let d4 : DIALOG :=
      { d3 with
        m_libraryModels := made.1,
        messages :=
          match made.2 with
          | some what => d3.messages ++ [.error what]
          | none => d3.messages }
    let modelNames := d4.m_library.GetModelNames
    { d4 with
      m_modelNameValidator := modelNames,
      m_modelNameCombobox := modelNames,
      m_modelNameSelection := -1,
      m_useLibraryModelRadioButton := true }

/-- The call SetStringSelection on the model name combobox: the first item that
is the text is selected; the selection stays when there is none. -/
def SetStringSelection (d : DIALOG) (s : Str) : DIALOG :=
  match d.m_modelNameCombobox.indexOf? s with
  | some k => { d with m_modelNameSelection := (k : Int) }
  | none => d

/-- The end of TransferDataToWindow, which both branches reach: the override
checkbox is set from the current model, the widgets are updated, and the result
is the one of the base class. -/
def TransferDataToWindow.finish (env : LIBRARY_ENV) (d : DIALOG) : Except ERR (DIALOG × Bool) :=
  match curModelSharedPtr env d with
  | .error e => .error e
  | .ok _ =>
    match env.updateWidgets d with
    | .error e => .error e
    | .ok d1 => .ok (d1, env.BaseTransferDataToWindow d1)

/-- DIALOG_SIM_MODEL::TransferDataToWindow: the dialog after the call and the
value returned. The model is created before the element of m_models is taken. -/
def TransferDataToWindow (env : LIBRARY_ENV) (d : DIALOG) : Except ERR (DIALOG × Bool) :=
  let libraryFilename := GetFieldValue d.m_fields env.LIBRARY_FIELD
  if libraryFilename ≠ [] then
    let d1 := loadLibrary env d libraryFilename
    let ibisMode := env.IsIbisLoaded d1
    let d2 := setIbisMode d1 ibisMode
    let d3 := SetStringSelection d2 (GetFieldValue d2.m_fields env.NAME_FIELD)
    match (if ibisMode = true ∧ 0 ≤ d3.m_modelNameSelection then env.selectIbisPin d3
           else .ok d3) with
    | .error e => .error e
    | .ok d4 =>
      match curModelSharedPtr env d4 with
      | .error e => .error e
      | .ok _ => TransferDataToWindow.finish env d4
  else
    let type := env.ReadTypeFromFields d.m_fields
    match env.Create d.m_sortedSymbolPins.length d.m_fields with
    | .error what =>
      let d1 : DIALOG := { d with messages := d.messages ++ [.error what] }
      .ok (d1, env.BaseTransferDataToWindow d1)
    | .ok model =>
      let index := env.typeIndex (env.ReadTypeFromFields d.m_fields)
      if index < d.m_models.length then
        TransferDataToWindow.finish env
          { d with m_models := d.m_models.set index model, m_curModelType := type }
      else .error .IndexError

/-- A base model of a library. -/
def baseModel : SIM_MODEL :=
  { type := .OTHER 2, params := [], pins := twoPins, isInferred := false }

/-- A concrete instance of the declarations the library functions use. The one
file that can be read is "/project/models.lib", with the two models D1 and D2; a
model is created from fields unless their parameter field is "bad", and then
with the symbol pins 1 and 2 assigned; a model created from a base model alone
is the base model. -/
def refLibraryEnv : LIBRARY_ENV where
  AbsolutePath := fun path => "/project/".toList ++ path
  ReadFile := fun library path =>
    if path = "/project/models.lib".toList then
      .ok { library with
            entries := [("D1".toList, baseModel), ("D2".toList, baseModel)],
            filePath := path }
    else .error "cannot open the file".toList
  Create := fun _ fields =>
    if GetFieldValue fields "Sim_Params".toList = "bad".toList then
      .error "cannot read the parameters".toList
    else .ok idealR1k
  CreateFromBase := fun base _ => .ok base
  CreateFromBaseAndFields := fun base _ fields =>
    if GetFieldValue fields "Sim_Params".toList = "bad".toList then
      .error "cannot read the parameters".toList
    else .ok { base with pins := [⟨"+".toList, "1".toList⟩, ⟨"-".toList, "2".toList⟩] }
  ReadTypeFromFields := fun _ => .R
  typeIndex := fun t => if t = .R then 0 else 1
  IsIbisLoaded := fun d => d.m_library.kind = .KIBIS
  selectIbisPin := fun d => .ok d
  updateWidgets := fun d => .ok d
  BaseTransferDataToWindow := fun _ => true
  LIBRARY_FIELD := "Sim_Library".toList
  NAME_FIELD := "Sim_Name".toList
  KIBIS_NAME_FIELD := "Sim_Name".toList

/-- A dialog as it is constructed, over given fields: an empty SPICE library, no
library model, two instance models, the first for the ideal resistor. -/
def newDialog (fields : List FIELD) : DIALOG :=
  { m_fields := fields,
    m_sortedSymbolPins := [⟨"1".toList, "1".toList, []⟩, ⟨"2".toList, "2".toList, []⟩],
    m_library := SIM_LIBRARY.new .SPICE,
    m_libraryModels := [],
    m_models := [(SIM_MODEL_IDEAL.new refEnv .R).val, (SIM_MODEL_IDEAL.new refEnv .C).val],
    m_curModelType := .C,
    m_tclibraryPathName := [],
    m_modelNameCombobox := [],
    m_modelNameSelection := -1,
    m_modelNameValidator := [],
    m_useLibraryModelRadioButton := false,
    ibisMode := false,
    messages := [] }

/-- The dialog of a symbol that names the model D1, after the library
"models.lib" is loaded. -/
def loadedDialog : DIALOG :=
  loadLibrary refLibraryEnv (newDialog [⟨"Sim_Name".toList, "D1".toList⟩]) "models.lib".toList

/-! ## Lemmas on the text primitives -/

theorem find_eq_none_iff (s : Str) : find s ['='] = none ↔ '=' ∉ s := by
  induction s with
  | nil => simp [find]
  | cons c cs ih =>
    by_cases h : c = '='
    · subst h; simp [find, List.isPrefixOf]
    · have h2 : ¬ ('=' = c) := fun e => h e.symm
      simp [find, List.isPrefixOf, h, h2, ih]

theorem replace_first_assign (name expr : Str) (h : '=' ∉ name) :
    replace_first (name ++ '=' :: expr) ['='] [] = name ++ expr := by
  induction name with
  | nil => simp [replace_first, List.isPrefixOf]
  | cons c cs ih =>
    have hc : ¬ ('=' = c) := fun e => h (List.mem_cons.mpr (Or.inl e))
    have hcs : '=' ∉ cs := fun e => h (List.mem_cons.mpr (Or.inr e))
    simp [replace_first, List.isPrefixOf, hc, ih hcs]

/-! ## Netlist lines -/

/-- C1: SPICE_GENERATOR_IDEAL::ItemLine returns the empty string whenever
parameter 0 of the model renders to the empty string in SPICE notation, for
every reference name, model name, symbol pin list and net name list. -/
theorem ideal_ItemLine_empty_value (env : SIM_ENV) (m : SIM_MODEL) (p : PARAM)
    (aRefName aModelName : Str) (aSymbolPinNumbers aPinNetNames : List Str)
    (h0 : GetParam m 0 = .ok p)
    (hv : SIM_VALUE.ToString env p .SPICE = []) :
    SPICE_GENERATOR_IDEAL.ItemLine env m aRefName aModelName aSymbolPinNumbers aPinNetNames
      = .ok [] := by
  simp [SPICE_GENERATOR_IDEAL.ItemLine, h0, hv]

/-- The empty-value case of the ideal item line at a fresh ideal resistor, whose
parameter r is unset: the line for R1 between VIN and GND is empty. -/
theorem ideal_ItemLine_empty_value_witness :
    (SIM_MODEL_IDEAL.new refEnv .R).val.params.map (fun p => p.value) = [[]]
    ∧ SPICE_GENERATOR_IDEAL.ItemLine refEnv (SIM_MODEL_IDEAL.new refEnv .R).val "R1".toList
        "R1".toList ["1".toList, "2".toList] ["VIN".toList, "GND".toList] = .ok [] :=
  ⟨rfl, ideal_ItemLine_empty_value refEnv (SIM_MODEL_IDEAL.new refEnv .R).val
    ⟨SIM_MODEL_IDEAL.makeParamInfo "r".toList "Resistance".toList "Ω".toList, []⟩
    "R1".toList "R1".toList ["1".toList, "2".toList] ["VIN".toList, "GND".toList] rfl rfl⟩

/-- C2: when parameter 0 renders to a non-empty string v in SPICE notation,
SPICE_GENERATOR_IDEAL::ItemLine is the generic item line built from the
reference name, v in the place of the model name, the symbol pin numbers and
the net names, all passed on unchanged and in the same order. -/
theorem ideal_ItemLine_value (env : SIM_ENV) (m : SIM_MODEL) (p : PARAM) (v : Str)
    (aRefName aModelName : Str) (aSymbolPinNumbers aPinNetNames : List Str)
    (h0 : GetParam m 0 = .ok p)
    (hv : SIM_VALUE.ToString env p .SPICE = v)
    (hne : v ≠ []) :
    SPICE_GENERATOR_IDEAL.ItemLine env m aRefName aModelName aSymbolPinNumbers aPinNetNames
      = .ok (env.ItemLine m aRefName v aSymbolPinNumbers aPinNetNames) := by
  subst hv
  simp [SPICE_GENERATOR_IDEAL.ItemLine, h0, hne]

/-- The ideal resistor R1 with r = "1k" on the pins 1, 2 and the nets VIN, GND:
the item line is "R1 VIN GND 1k"; it holds the reference, VIN before GND, and
the rendered value of 1k. -/
theorem ideal_ItemLine_value_witness :
    SPICE_GENERATOR_IDEAL.ItemLine refEnv idealR1k "R1".toList "R1".toList
        ["1".toList, "2".toList] ["VIN".toList, "GND".toList] = .ok "R1 VIN GND 1k".toList
    ∧ "R1 VIN GND 1k".toList
        = "R1".toList ++ " ".toList ++ "VIN".toList ++ " ".toList ++ "GND".toList ++ " ".toList
          ++ refEnv.render .TYPE_FLOAT .SPICE "1k".toList :=
  ⟨ideal_ItemLine_value refEnv idealR1k
    ⟨SIM_MODEL_IDEAL.makeParamInfo "r".toList "Resistance".toList "Ω".toList, "1k".toList⟩
    "1k".toList "R1".toList "R1".toList ["1".toList, "2".toList]
    ["VIN".toList, "GND".toList] rfl rfl (by decide), rfl⟩

/-- C3: ModelLine of the Ideal and of the Behavioral generator is the empty
string for every model name and every model state. -/
theorem ModelLine_empty (m : SIM_MODEL) (aModelName : Str) :
    SPICE_GENERATOR_IDEAL.ModelLine m aModelName = []
    ∧ SPICE_GENERATOR_BEHAVIORAL.ModelLine m aModelName = [] :=
  ⟨rfl, rfl⟩

/-- C4: for the passive types R_BEHAVIORAL, C_BEHAVIORAL and L_BEHAVIORAL,
SPICE_GENERATOR_BEHAVIORAL::ItemLine is the generic item line built from the
reference name, the raw expression held by parameter 0 (no prefix, no braces,
no rewriting), the symbol pin numbers and the net names; no assertion fails. -/
theorem behavioral_ItemLine_passive (env : SIM_ENV) (m : SIM_MODEL) (p : PARAM)
    (aRefName aModelName : Str) (aSymbolPinNumbers aPinNetNames : List Str)
    (ht : m.type = .R_BEHAVIORAL ∨ m.type = .C_BEHAVIORAL ∨ m.type = .L_BEHAVIORAL)
    (h0 : GetParam m 0 = .ok p)
    (hs : p.info.type = .TYPE_STRING) :
    SPICE_GENERATOR_BEHAVIORAL.ItemLine env m aRefName aModelName aSymbolPinNumbers aPinNetNames
      = ⟨[], .ok (env.ItemLine m aRefName p.value aSymbolPinNumbers aPinNetNames)⟩ := by
  rcases ht with ht | ht | ht <;>
    simp [SPICE_GENERATOR_BEHAVIORAL.ItemLine, ht, h0, SIM_VALUE.ToString, hs]

/-- The behavioral resistor R1 with r = "2*V(in)": the expression is the value of
the item line as it stands. -/
theorem behavioral_ItemLine_passive_witness :
    SPICE_GENERATOR_BEHAVIORAL.ItemLine refEnv
        { type := .R_BEHAVIORAL,
          params := [⟨SIM_MODEL_BEHAVIORAL.makeParams "r".toList
                        "Expression for resistance".toList "Ω".toList, "2*V(in)".toList⟩],
          pins := twoPins, isInferred := false }
        "R1".toList "R1".toList ["1".toList, "2".toList] ["VIN".toList, "GND".toList]
      = ⟨[], .ok "R1 VIN GND 2*V(in)".toList⟩ :=
  behavioral_ItemLine_passive refEnv _
    ⟨SIM_MODEL_BEHAVIORAL.makeParams "r".toList "Expression for resistance".toList "Ω".toList,
      "2*V(in)".toList⟩
    "R1".toList "R1".toList ["1".toList, "2".toList] ["VIN".toList, "GND".toList]
    (Or.inl rfl) rfl rfl

/-- C5: for the source types, SPICE_GENERATOR_BEHAVIORAL::ItemLine passes "V="
followed by the expression of parameter 0 (V_BEHAVIORAL), or "I=" followed by
it (I_BEHAVIORAL), as the value of the generic item line. -/
theorem behavioral_ItemLine_source (env : SIM_ENV) (m : SIM_MODEL) (p : PARAM)
    (aRefName aModelName : Str) (aSymbolPinNumbers aPinNetNames : List Str)
    (h0 : GetParam m 0 = .ok p)
    (hs : p.info.type = .TYPE_STRING) :
    (m.type = .V_BEHAVIORAL →
      SPICE_GENERATOR_BEHAVIORAL.ItemLine env m aRefName aModelName aSymbolPinNumbers
          aPinNetNames
        = ⟨[], .ok (env.ItemLine m aRefName ("V=".toList ++ p.value) aSymbolPinNumbers
                      aPinNetNames)⟩)
    ∧ (m.type = .I_BEHAVIORAL →
      SPICE_GENERATOR_BEHAVIORAL.ItemLine env m aRefName aModelName aSymbolPinNumbers
          aPinNetNames
        = ⟨[], .ok (env.ItemLine m aRefName ("I=".toList ++ p.value) aSymbolPinNumbers
                      aPinNetNames)⟩) := by
  constructor <;> intro ht <;>
    simp [SPICE_GENERATOR_BEHAVIORAL.ItemLine, ht, h0, SIM_VALUE.ToString, hs]

/-- The behavioral voltage source V1 with v = "SIN(0 5 1k)": the item line is
"V1 VIN GND V=SIN(0 5 1k)", which contains the text "V=SIN(0 5 1k)". -/
theorem behavioral_ItemLine_source_witness :
    SPICE_GENERATOR_BEHAVIORAL.ItemLine refEnv behavioralVSin "V1".toList "V1".toList
        ["1".toList, "2".toList] ["VIN".toList, "GND".toList]
      = ⟨[], .ok "V1 VIN GND V=SIN(0 5 1k)".toList⟩
    ∧ List.IsInfix "V=SIN(0 5 1k)".toList "V1 VIN GND V=SIN(0 5 1k)".toList :=
  ⟨(behavioral_ItemLine_source refEnv behavioralVSin
      ⟨SIM_MODEL_BEHAVIORAL.makeParams "v".toList "Expression for voltage".toList "V".toList,
        "SIN(0 5 1k)".toList⟩
      "V1".toList "V1".toList ["1".toList, "2".toList] ["VIN".toList, "GND".toList]
      rfl rfl).1 rfl,
   ⟨"V1 VIN GND ".toList, [], rfl⟩⟩

/-- C6, as stated, fails: on an object of SIM_MODEL_BEHAVIORAL whose type is
the ideal resistor R, none of the five behavioral types, ItemLine returns
normally, and what it returns is the ordinary empty line. -/
theorem unhandled_type_returns_empty_line :
    isBehavioral (SIM_MODEL_BEHAVIORAL.new refEnv .R).val.type = false
    ∧ (SPICE_GENERATOR_BEHAVIORAL.ItemLine refEnv (SIM_MODEL_BEHAVIORAL.new refEnv .R).val
        "R1".toList "R1".toList ["1".toList, "2".toList] ["VIN".toList, "GND".toList]).val
      = .ok [] :=
  ⟨rfl, rfl⟩

/-- C6, amended: on a model whose type is none of R_BEHAVIORAL, C_BEHAVIORAL,
L_BEHAVIORAL, V_BEHAVIORAL and I_BEHAVIORAL, SPICE_GENERATOR_BEHAVIORAL::ItemLine
raises the assertion "Unhandled SIM_MODEL type in SIM_MODEL_BEHAVIORAL" and then
returns the empty string; no parameter is read. -/
theorem behavioral_ItemLine_unhandled (env : SIM_ENV) (m : SIM_MODEL)
    (aRefName aModelName : Str) (aSymbolPinNumbers aPinNetNames : List Str)
    (ht : isBehavioral m.type = false) :
    SPICE_GENERATOR_BEHAVIORAL.ItemLine env m aRefName aModelName aSymbolPinNumbers aPinNetNames
      = ⟨["Unhandled SIM_MODEL type in SIM_MODEL_BEHAVIORAL"], .ok []⟩ := by
  unfold SPICE_GENERATOR_BEHAVIORAL.ItemLine
  cases hm : m.type <;> simp_all [isBehavioral]

/-- The unhandled case at a model of another type, `OTHER 7`, that has no
parameter at all: the assertion and the empty line. -/
theorem behavioral_ItemLine_unhandled_witness :
    SPICE_GENERATOR_BEHAVIORAL.ItemLine refEnv
        { type := .OTHER 7, params := [], pins := twoPins, isInferred := false }
        "T1".toList "T1".toList ["1".toList, "2".toList] ["VIN".toList, "GND".toList]
      = ⟨["Unhandled SIM_MODEL type in SIM_MODEL_BEHAVIORAL"], .ok []⟩ :=
  behavioral_ItemLine_unhandled refEnv _ "T1".toList "T1".toList ["1".toList, "2".toList]
    ["VIN".toList, "GND".toList] rfl

/-! ## Inference from the Reference and Value fields -/

/-- The behavioral inference path on a model with one string parameter, once
the pins field is read: the three outcomes of the condition. -/
theorem inferredReadDataFields_eq (env : SIM_ENV) (m : SIM_MODEL) (p : PARAM)
    (aSymbolPinCount : Nat) (aFields : List FIELD) (pins : List PIN)
    (hp : m.params = [p]) (hs : p.info.type = .TYPE_STRING)
    (hpins : env.ParsePinsField aSymbolPinCount (GetFieldValue aFields env.PINS_FIELD) m.pins
      = .ok pins) :
    SIM_MODEL_BEHAVIORAL.inferredReadDataFields env m aSymbolPinCount aFields
      = if env.InferTypeFromRefAndValue (GetFieldValue aFields env.REFERENCE_FIELD)
             (GetFieldValue aFields env.VALUE_FIELD) = m.type
           ∧ '=' ∈ GetFieldValue aFields env.VALUE_FIELD then
          .ok { m with
                pins := pins,
                params := [{ p with
                  value := trim_copy
                    (replace_first (GetFieldValue aFields env.VALUE_FIELD) ['='] []) }],
                isInferred := true }
        else if GetFieldValue aFields env.VALUE_FIELD
            = (env.DeviceTypeInfo (env.GetDeviceType m.type)).fieldValue then
          .ok { m with pins := pins, isInferred := true }
        else .ok { m with pins := pins } := by
  unfold SIM_MODEL_BEHAVIORAL.inferredReadDataFields
  rw [hpins]
  dsimp only
  generalize GetFieldValue aFields env.REFERENCE_FIELD = ref
  generalize GetFieldValue aFields env.VALUE_FIELD = v
  generalize (env.DeviceTypeInfo (env.GetDeviceType m.type)).fieldValue = marker
  by_cases hi : env.InferTypeFromRefAndValue ref v = m.type
  · by_cases he : '=' ∈ v
    · have hf : ¬ (find v ['='] = none) := by
        rw [find_eq_none_iff]; exact fun h => h he
      simp [hi, he, hf, SIM_MODEL_BEHAVIORAL.parseValueField, SetParamValue, hp, hs]
    · have hf : find v ['='] = none := by
        rw [find_eq_none_iff]; exact he
      by_cases hm : v = marker
      · subst hm
        simp [hi, he, hf, SIM_MODEL_BEHAVIORAL.parseValueField]
      · simp [hi, he, hf, hm, SIM_MODEL_BEHAVIORAL.parseValueField]
  · by_cases hm : v = marker
    · subst hm
      simp [hi]
    · simp [hi, hm]

/-- The behavioral inference path on any model, for a Value without "=": no
parameter is written, and the model is inferred exactly when Value is the marker
of its device type. -/
theorem inferredReadDataFields_no_assignment (env : SIM_ENV) (m : SIM_MODEL)
    (aSymbolPinCount : Nat) (aFields : List FIELD) (pins : List PIN)
    (hpins : env.ParsePinsField aSymbolPinCount (GetFieldValue aFields env.PINS_FIELD) m.pins
      = .ok pins)
    (hno : '=' ∉ GetFieldValue aFields env.VALUE_FIELD) :
    SIM_MODEL_BEHAVIORAL.inferredReadDataFields env m aSymbolPinCount aFields
      = if GetFieldValue aFields env.VALUE_FIELD
            = (env.DeviceTypeInfo (env.GetDeviceType m.type)).fieldValue then
          .ok { m with pins := pins, isInferred := true }
        else .ok { m with pins := pins } := by
  unfold SIM_MODEL_BEHAVIORAL.inferredReadDataFields
  rw [hpins]
  dsimp only
  have hf : find (GetFieldValue aFields env.VALUE_FIELD) ['='] = none := by
    rw [find_eq_none_iff]; exact hno
  generalize GetFieldValue aFields env.REFERENCE_FIELD = ref at *
  generalize GetFieldValue aFields env.VALUE_FIELD = v at *
  generalize (env.DeviceTypeInfo (env.GetDeviceType m.type)).fieldValue = marker
  by_cases hi : env.InferTypeFromRefAndValue ref v = m.type
  · by_cases hm : v = marker
    · subst hm
      simp [hi, hf, SIM_MODEL_BEHAVIORAL.parseValueField]
    · simp [hi, hf, hm, SIM_MODEL_BEHAVIORAL.parseValueField]
  · by_cases hm : v = marker
    · subst hm
      simp [hi]
    · simp [hi, hm]

/-- C7, as stated, fails on the form `name=expr`: on a fresh behavioral resistor,
parseValueField applied to "r=2*V(in)" returns true and installs "r2*V(in)";
and whatever heuristic infers the type, when it derives the type of the model
from Reference "R1" and Value "r=2*V(in)", the inference installs "r2*V(in)"
and marks the model inferred. The parameter is not "2*V(in)". -/
theorem assignment_name_is_kept :
    (SIM_MODEL_BEHAVIORAL.parseValueField refEnv
        (SIM_MODEL_BEHAVIORAL.new refEnv .R_BEHAVIORAL).val "r=2*V(in)".toList).map
      (fun r => (r.1, r.2.params.map (fun p => p.value)))
      = .ok (true, ["r2*V(in)".toList])
    ∧ (∀ infer : Str → Str → SIM_MODEL.TYPE,
        infer "R1".toList "r=2*V(in)".toList
            = (SIM_MODEL_BEHAVIORAL.new refEnv .R_BEHAVIORAL).val.type →
        (SIM_MODEL_BEHAVIORAL.inferredReadDataFields
            { refEnv with InferTypeFromRefAndValue := infer }
            (SIM_MODEL_BEHAVIORAL.new refEnv .R_BEHAVIORAL).val 2
            [⟨"Reference".toList, "R1".toList⟩, ⟨"Value".toList, "r=2*V(in)".toList⟩]).map
          (fun m => (m.params.map (fun p => p.value), m.isInferred))
        = .ok (["r2*V(in)".toList], true))
    ∧ "r2*V(in)".toList ≠ "2*V(in)".toList := by
  refine ⟨rfl, ?_, by decide⟩
  intro infer hinfer
  rw [inferredReadDataFields_eq { refEnv with InferTypeFromRefAndValue := infer }
    (SIM_MODEL_BEHAVIORAL.new refEnv .R_BEHAVIORAL).val
    ⟨SIM_MODEL_BEHAVIORAL.makeParams "r".toList "Expression for resistance".toList "Ω".toList, []⟩
    2 [⟨"Reference".toList, "R1".toList⟩, ⟨"Value".toList, "r=2*V(in)".toList⟩] twoPins
    rfl rfl rfl]
  rw [if_pos ⟨hinfer, (show '=' ∈ "r=2*V(in)".toList by decide)⟩]
  rfl

/-- C7, amended: for a Value text of the bare form `=expr`, when the type
inferred from (Reference, Value) is the type of the model, the inference sets
the sole parameter to `expr` with leading and trailing whitespace removed and
marks the model inferred. -/
theorem inferred_bare_assignment (env : SIM_ENV) (m : SIM_MODEL) (p : PARAM)
    (aSymbolPinCount : Nat) (aFields : List FIELD) (pins : List PIN) (expr : Str)
    (hp : m.params = [p]) (hs : p.info.type = .TYPE_STRING)
    (hpins : env.ParsePinsField aSymbolPinCount (GetFieldValue aFields env.PINS_FIELD) m.pins
      = .ok pins)
    (hinf : env.InferTypeFromRefAndValue (GetFieldValue aFields env.REFERENCE_FIELD)
      (GetFieldValue aFields env.VALUE_FIELD) = m.type)
    (hval : GetFieldValue aFields env.VALUE_FIELD = '=' :: expr) :
    SIM_MODEL_BEHAVIORAL.inferredReadDataFields env m aSymbolPinCount aFields
      = .ok { m with pins := pins,
                     params := [{ p with value := trim_copy expr }],
                     isInferred := true } := by
  rw [inferredReadDataFields_eq env m p aSymbolPinCount aFields pins hp hs hpins]
  have he : '=' ∈ GetFieldValue aFields env.VALUE_FIELD := by rw [hval]; simp
  have hrep : replace_first ('=' :: expr) ['='] [] = expr := by
    simpa using replace_first_assign [] expr (by simp)
  rw [if_pos ⟨hinf, he⟩, hval, hrep]

/-- The bare assignment at a fresh behavioral resistor R1 with the Value
"= 2*V(in) ": the parameter becomes "2*V(in)" and the model is inferred. -/
theorem inferred_bare_assignment_witness :
    SIM_MODEL_BEHAVIORAL.inferredReadDataFields refEnv
        (SIM_MODEL_BEHAVIORAL.new refEnv .R_BEHAVIORAL).val 2
        [⟨"Reference".toList, "R1".toList⟩, ⟨"Value".toList, "= 2*V(in) ".toList⟩]
      = .ok { type := .R_BEHAVIORAL,
              params := [⟨SIM_MODEL_BEHAVIORAL.makeParams "r".toList
                            "Expression for resistance".toList "Ω".toList, "2*V(in)".toList⟩],
              pins := twoPins,
              isInferred := true } :=
  inferred_bare_assignment refEnv (SIM_MODEL_BEHAVIORAL.new refEnv .R_BEHAVIORAL).val
    ⟨SIM_MODEL_BEHAVIORAL.makeParams "r".toList "Expression for resistance".toList "Ω".toList, []⟩
    2 [⟨"Reference".toList, "R1".toList⟩, ⟨"Value".toList, "= 2*V(in) ".toList⟩] twoPins
    " 2*V(in) ".toList rfl rfl rfl rfl rfl

/-- C8: when the Value field is exactly the marker text (fieldValue) of the
device type of the model, a marker without "=", inferredReadDataFields marks the
model inferred and leaves every parameter at the value it had, whatever the
Reference field is; only the pins read from the pins field change. -/
theorem inferred_marker (env : SIM_ENV) (m : SIM_MODEL)
    (aSymbolPinCount : Nat) (aFields : List FIELD) (pins : List PIN)
    (hpins : env.ParsePinsField aSymbolPinCount (GetFieldValue aFields env.PINS_FIELD) m.pins
      = .ok pins)
    (hval : GetFieldValue aFields env.VALUE_FIELD
      = (env.DeviceTypeInfo (env.GetDeviceType m.type)).fieldValue)
    (hmarker : '=' ∉ (env.DeviceTypeInfo (env.GetDeviceType m.type)).fieldValue) :
    SIM_MODEL_BEHAVIORAL.inferredReadDataFields env m aSymbolPinCount aFields
      = .ok { m with pins := pins, isInferred := true } := by
  rw [inferredReadDataFields_no_assignment env m aSymbolPinCount aFields pins hpins
    (by rw [hval]; exact hmarker)]
  rw [if_pos hval]

/-- The marker case at a fresh behavioral resistor with Value "R" and a
Reference, "X99", from which the heuristic derives no resistor: the model is
inferred and its parameter r is still unset. -/
theorem inferred_marker_witness :
    SIM_MODEL_BEHAVIORAL.inferredReadDataFields refEnv
        (SIM_MODEL_BEHAVIORAL.new refEnv .R_BEHAVIORAL).val 2
        [⟨"Reference".toList, "X99".toList⟩, ⟨"Value".toList, "R".toList⟩]
      = .ok { type := .R_BEHAVIORAL,
              params := [⟨SIM_MODEL_BEHAVIORAL.makeParams "r".toList
                            "Expression for resistance".toList "Ω".toList, []⟩],
              pins := twoPins,
              isInferred := true } :=
  inferred_marker refEnv (SIM_MODEL_BEHAVIORAL.new refEnv .R_BEHAVIORAL).val 2
    [⟨"Reference".toList, "X99".toList⟩, ⟨"Value".toList, "R".toList⟩] twoPins
    rfl rfl (by decide)

/-- The state the SIM_MODEL_BEHAVIORAL constructor leaves for one of its five
types: one unset string parameter, the initial pins, isInferred false, and no
failed assertion. -/
theorem SIM_MODEL_BEHAVIORAL_new_state (env : SIM_ENV) (aType : SIM_MODEL.TYPE)
    (ht : isBehavioral aType = true) :
    ∃ info : PARAM.INFO, info.type = .TYPE_STRING
      ∧ SIM_MODEL_BEHAVIORAL.new env aType
        = ⟨[], { type := aType, params := [⟨info, []⟩], pins := env.initialPins aType,
                 isInferred := false }⟩ := by
  cases aType <;> simp [isBehavioral] at ht <;>
    exact ⟨_, rfl, rfl⟩

/-- C9: after inferredReadDataFields on a freshly constructed behavioral model,
isInferred is true if and only if (the type inferred from Reference and Value
is the type of the model and Value contains "=") or Value is the marker of the
device type; the call raises no error once the pins field is read, and when
neither condition holds the model is the constructed one with the pins read:
isInferred false and the parameter unset. -/
theorem inferred_iff (env : SIM_ENV) (aType : SIM_MODEL.TYPE)
    (aSymbolPinCount : Nat) (aFields : List FIELD) (pins : List PIN)
    (ht : isBehavioral aType = true)
    (hpins : env.ParsePinsField aSymbolPinCount (GetFieldValue aFields env.PINS_FIELD)
      (env.initialPins aType) = .ok pins) :
    ∃ m1 : SIM_MODEL,
      SIM_MODEL_BEHAVIORAL.inferredReadDataFields env (SIM_MODEL_BEHAVIORAL.new env aType).val
          aSymbolPinCount aFields = .ok m1
      ∧ (m1.isInferred = true ↔
          (env.InferTypeFromRefAndValue (GetFieldValue aFields env.REFERENCE_FIELD)
              (GetFieldValue aFields env.VALUE_FIELD) = aType
            ∧ '=' ∈ GetFieldValue aFields env.VALUE_FIELD)
          ∨ GetFieldValue aFields env.VALUE_FIELD
              = (env.DeviceTypeInfo (env.GetDeviceType aType)).fieldValue)
      ∧ (m1.isInferred = false →
          m1 = { (SIM_MODEL_BEHAVIORAL.new env aType).val with pins := pins }
          ∧ m1.params.map (fun p => p.value) = [[]]) := by
  obtain ⟨info, hs, hnew⟩ := SIM_MODEL_BEHAVIORAL_new_state env aType ht
  rw [hnew]
  rw [inferredReadDataFields_eq env _ ⟨info, []⟩ aSymbolPinCount aFields pins rfl hs hpins]
  dsimp only
  by_cases h1 : env.InferTypeFromRefAndValue (GetFieldValue aFields env.REFERENCE_FIELD)
      (GetFieldValue aFields env.VALUE_FIELD) = aType
      ∧ '=' ∈ GetFieldValue aFields env.VALUE_FIELD
  · rw [if_pos h1]
    exact ⟨_, rfl, by simp [h1], by simp⟩
  · rw [if_neg h1]
    by_cases h2 : GetFieldValue aFields env.VALUE_FIELD
        = (env.DeviceTypeInfo (env.GetDeviceType aType)).fieldValue
    · rw [if_pos h2]
      exact ⟨_, rfl, by simp [h2], by simp⟩
    · rw [if_neg h2]
      exact ⟨_, rfl, by simp [h1, h2], by simp⟩

/-- The three outcomes at a fresh behavioral capacitor C3: Value "=1u*V(a)" is
inferred through the assignment, Value "C" through the marker, and Value "100n"
leaves the constructed model as it is. -/
theorem inferred_iff_witness :
    (∃ m1 : SIM_MODEL,
      SIM_MODEL_BEHAVIORAL.inferredReadDataFields refEnv
          (SIM_MODEL_BEHAVIORAL.new refEnv .C_BEHAVIORAL).val 2
          [⟨"Reference".toList, "C3".toList⟩, ⟨"Value".toList, "100n".toList⟩] = .ok m1
      ∧ (m1.isInferred = true ↔
          (refEnv.InferTypeFromRefAndValue
              (GetFieldValue [⟨"Reference".toList, "C3".toList⟩, ⟨"Value".toList, "100n".toList⟩]
                refEnv.REFERENCE_FIELD)
              (GetFieldValue [⟨"Reference".toList, "C3".toList⟩, ⟨"Value".toList, "100n".toList⟩]
                refEnv.VALUE_FIELD) = .C_BEHAVIORAL
            ∧ '=' ∈ GetFieldValue
                [⟨"Reference".toList, "C3".toList⟩, ⟨"Value".toList, "100n".toList⟩]
                refEnv.VALUE_FIELD)
          ∨ GetFieldValue [⟨"Reference".toList, "C3".toList⟩, ⟨"Value".toList, "100n".toList⟩]
                refEnv.VALUE_FIELD
              = (refEnv.DeviceTypeInfo (refEnv.GetDeviceType .C_BEHAVIORAL)).fieldValue)
      ∧ (m1.isInferred = false →
          m1 = { (SIM_MODEL_BEHAVIORAL.new refEnv .C_BEHAVIORAL).val with pins := twoPins }
          ∧ m1.params.map (fun p => p.value) = [[]]))
    ∧ (SIM_MODEL_BEHAVIORAL.inferredReadDataFields refEnv
          (SIM_MODEL_BEHAVIORAL.new refEnv .C_BEHAVIORAL).val 2
          [⟨"Reference".toList, "C3".toList⟩, ⟨"Value".toList, "100n".toList⟩]).map
        (fun m => (m.isInferred, m.params.map (fun p => p.value))) = .ok (false, [[]])
    ∧ (SIM_MODEL_BEHAVIORAL.inferredReadDataFields refEnv
          (SIM_MODEL_BEHAVIORAL.new refEnv .C_BEHAVIORAL).val 2
          [⟨"Reference".toList, "C3".toList⟩, ⟨"Value".toList, "=1u*V(a)".toList⟩]).map
        (fun m => (m.isInferred, m.params.map (fun p => p.value)))
      = .ok (true, ["1u*V(a)".toList])
    ∧ (SIM_MODEL_BEHAVIORAL.inferredReadDataFields refEnv
          (SIM_MODEL_BEHAVIORAL.new refEnv .C_BEHAVIORAL).val 2
          [⟨"Reference".toList, "C3".toList⟩, ⟨"Value".toList, "C".toList⟩]).map
        (fun m => (m.isInferred, m.params.map (fun p => p.value))) = .ok (true, [[]]) :=
  ⟨inferred_iff refEnv .C_BEHAVIORAL 2
    [⟨"Reference".toList, "C3".toList⟩, ⟨"Value".toList, "100n".toList⟩] twoPins rfl rfl,
   rfl, rfl, rfl⟩

/-- C10: decoding a behavioral model whose explicit parameter field is empty,
from a Value text that contains no "=" and differs from the marker of the device
type, applies no inference, whatever type the heuristic derives: the schematic
and the library decode both return the model with the pins read, its parameters
and its isInferred flag untouched. -/
theorem decode_without_assignment (env : SIM_ENV) (m : SIM_MODEL)
    (aSymbolPinCount : Nat) (aFields : List FIELD) (pins : List PIN)
    (hparams : GetFieldValue aFields env.PARAMS_FIELD = [])
    (hpins : env.ParsePinsField aSymbolPinCount (GetFieldValue aFields env.PINS_FIELD) m.pins
      = .ok pins)
    (hno : '=' ∉ GetFieldValue aFields env.VALUE_FIELD)
    (hmarker : GetFieldValue aFields env.VALUE_FIELD
      ≠ (env.DeviceTypeInfo (env.GetDeviceType m.type)).fieldValue) :
    SIM_MODEL_BEHAVIORAL.ReadDataSchFields env m aSymbolPinCount aFields
        = .ok { m with pins := pins }
    ∧ SIM_MODEL_BEHAVIORAL.ReadDataLibFields env m aSymbolPinCount aFields
        = .ok { m with pins := pins } := by
  have h := inferredReadDataFields_no_assignment env m aSymbolPinCount aFields pins hpins hno
  rw [if_neg hmarker] at h
  constructor
  · simp [SIM_MODEL_BEHAVIORAL.ReadDataSchFields, hparams, h]
  · simp [SIM_MODEL_BEHAVIORAL.ReadDataLibFields, hparams, h]

/-- The negative case of the inference: a behavioral resistor decoded from
Reference "R1" and Value "10k" with no explicit parameter field. The heuristic
derives the ideal resistor; the model comes back as constructed, parameter r
unset and isInferred false. -/
theorem decode_without_assignment_witness :
    refEnv.InferTypeFromRefAndValue "R1".toList "10k".toList = .R
    ∧ (SIM_MODEL_BEHAVIORAL.ReadDataSchFields refEnv
          (SIM_MODEL_BEHAVIORAL.new refEnv .R_BEHAVIORAL).val 2
          [⟨"Reference".toList, "R1".toList⟩, ⟨"Value".toList, "10k".toList⟩]
        = .ok { type := .R_BEHAVIORAL,
                params := [⟨SIM_MODEL_BEHAVIORAL.makeParams "r".toList
                              "Expression for resistance".toList "Ω".toList, []⟩],
                pins := twoPins,
                isInferred := false }
      ∧ SIM_MODEL_BEHAVIORAL.ReadDataLibFields refEnv
          (SIM_MODEL_BEHAVIORAL.new refEnv .R_BEHAVIORAL).val 2
          [⟨"Reference".toList, "R1".toList⟩, ⟨"Value".toList, "10k".toList⟩]
        = .ok { type := .R_BEHAVIORAL,
                params := [⟨SIM_MODEL_BEHAVIORAL.makeParams "r".toList
                              "Expression for resistance".toList "Ω".toList, []⟩],
                pins := twoPins,
                isInferred := false }) :=
  ⟨rfl, decode_without_assignment refEnv (SIM_MODEL_BEHAVIORAL.new refEnv .R_BEHAVIORAL).val 2
    [⟨"Reference".toList, "R1".toList⟩, ⟨"Value".toList, "10k".toList⟩] twoPins
    rfl rfl (by decide) (by decide)⟩

/-! ## Decode and encode dispatch -/

/-- C12: the decode of the Ideal and of the Behavioral model, for schematic and
for library fields alike, is the explicit decode of the base class when the
parameter-list field is not empty and the inference path of the variant when it
is empty: one of the two paths, never both, for every field set. -/
theorem decode_dispatch (env : SIM_ENV)
    (InferredReadDataFields : Nat → List FIELD → Bool → Bool → SIM_MODEL → Except ERR SIM_MODEL)
    (m : SIM_MODEL) (aSymbolPinCount : Nat) (aFields : List FIELD) :
    SIM_MODEL_IDEAL.ReadDataSchFields env InferredReadDataFields m aSymbolPinCount aFields
        = (if GetFieldValue aFields env.PARAMS_FIELD = [] then
            InferredReadDataFields aSymbolPinCount aFields true false m
          else env.ReadDataFields aSymbolPinCount aFields m)
    ∧ SIM_MODEL_IDEAL.ReadDataLibFields env InferredReadDataFields m aSymbolPinCount aFields
        = (if GetFieldValue aFields env.PARAMS_FIELD = [] then
            InferredReadDataFields aSymbolPinCount aFields true false m
          else env.ReadDataFields aSymbolPinCount aFields m)
    ∧ SIM_MODEL_BEHAVIORAL.ReadDataSchFields env m aSymbolPinCount aFields
        = (if GetFieldValue aFields env.PARAMS_FIELD = [] then
            SIM_MODEL_BEHAVIORAL.inferredReadDataFields env m aSymbolPinCount aFields
          else env.ReadDataFields aSymbolPinCount aFields m)
    ∧ SIM_MODEL_BEHAVIORAL.ReadDataLibFields env m aSymbolPinCount aFields
        = (if GetFieldValue aFields env.PARAMS_FIELD = [] then
            SIM_MODEL_BEHAVIORAL.inferredReadDataFields env m aSymbolPinCount aFields
          else env.ReadDataFields aSymbolPinCount aFields m) := by
  unfold SIM_MODEL_IDEAL.ReadDataSchFields SIM_MODEL_IDEAL.ReadDataLibFields
    SIM_MODEL_BEHAVIORAL.ReadDataSchFields SIM_MODEL_BEHAVIORAL.ReadDataLibFields
  by_cases h : GetFieldValue aFields env.PARAMS_FIELD = [] <;> simp [h]

/-- C13: the encode of the Ideal and of the Behavioral model, for schematic and
for library fields alike, always performs the explicit write of the base class;
when isInferred is set it goes on to regenerate the legacy fields, on the result
of the explicit write, from the value of parameter 0 (the marker of the device
type when that value is empty; preceded by "=" for the Behavioral model); when
isInferred is not set the encode is the explicit write and nothing else, so the
Value field is what the explicit write left. -/
theorem encode_dispatch (env : SIM_BASE) (m : SIM_MODEL) (aFields : List FIELD) :
    (∀ p : PARAM, GetParam m 0 = .ok p → m.isInferred = true →
      SIM_MODEL_IDEAL.WriteDataSchFields env m aFields
          = .ok (env.WriteInferredDataFields m (env.WriteDataFields m aFields)
              (if SIM_VALUE.ToString env.toSIM_ENV p .DEFAULT = [] then
                (env.DeviceTypeInfo (env.GetDeviceType m.type)).fieldValue
               else SIM_VALUE.ToString env.toSIM_ENV p .DEFAULT))
      ∧ SIM_MODEL_IDEAL.WriteDataLibFields env m aFields
          = SIM_MODEL_IDEAL.WriteDataSchFields env m aFields
      ∧ SIM_MODEL_BEHAVIORAL.WriteDataSchFields env m aFields
          = .ok (env.WriteInferredDataFields m (env.WriteDataFields m aFields)
              ('=' :: (if SIM_VALUE.ToString env.toSIM_ENV p .DEFAULT = [] then
                (env.DeviceTypeInfo (env.GetDeviceType m.type)).fieldValue
               else SIM_VALUE.ToString env.toSIM_ENV p .DEFAULT)))
      ∧ SIM_MODEL_BEHAVIORAL.WriteDataLibFields env m aFields
          = SIM_MODEL_BEHAVIORAL.WriteDataSchFields env m aFields)
    ∧ (m.isInferred = false →
      SIM_MODEL_IDEAL.WriteDataSchFields env m aFields = .ok (env.WriteDataFields m aFields)
      ∧ SIM_MODEL_IDEAL.WriteDataLibFields env m aFields = .ok (env.WriteDataFields m aFields)
      ∧ SIM_MODEL_BEHAVIORAL.WriteDataSchFields env m aFields
          = .ok (env.WriteDataFields m aFields)
      ∧ SIM_MODEL_BEHAVIORAL.WriteDataLibFields env m aFields
          = .ok (env.WriteDataFields m aFields)) := by
  constructor
  · intro p h0 hi
    refine ⟨?_, rfl, ?_, rfl⟩
    · simp [SIM_MODEL_IDEAL.WriteDataSchFields, SIM_MODEL_IDEAL.inferredWriteDataFields, hi, h0]
    · simp [SIM_MODEL_BEHAVIORAL.WriteDataSchFields, SIM_MODEL_BEHAVIORAL.inferredWriteDataFields,
        GetDeviceTypeInfo, hi, h0]
  · intro hi
    simp [SIM_MODEL_IDEAL.WriteDataSchFields, SIM_MODEL_IDEAL.WriteDataLibFields,
      SIM_MODEL_BEHAVIORAL.WriteDataSchFields, SIM_MODEL_BEHAVIORAL.WriteDataLibFields, hi]

/-- The encode of an ideal resistor with r = "1k" on the fields Reference "R1",
Value "old": when the model is inferred the Value field becomes "1k"; when it is
not, the Value field stays "old". -/
theorem encode_dispatch_witness :
    SIM_MODEL_IDEAL.WriteDataSchFields refBase { idealR1k with isInferred := true }
        [⟨"Reference".toList, "R1".toList⟩, ⟨"Value".toList, "old".toList⟩]
      = .ok [⟨"Reference".toList, "R1".toList⟩, ⟨"Value".toList, "1k".toList⟩,
             ⟨"Sim_Pins".toList, "1 2 ".toList⟩]
    ∧ SIM_MODEL_IDEAL.WriteDataSchFields refBase idealR1k
        [⟨"Reference".toList, "R1".toList⟩, ⟨"Value".toList, "old".toList⟩]
      = .ok [⟨"Reference".toList, "R1".toList⟩, ⟨"Value".toList, "old".toList⟩,
             ⟨"Sim_Pins".toList, "1 2 ".toList⟩] :=
  ⟨((encode_dispatch refBase { idealR1k with isInferred := true }
      [⟨"Reference".toList, "R1".toList⟩, ⟨"Value".toList, "old".toList⟩]).1
      ⟨SIM_MODEL_IDEAL.makeParamInfo "r".toList "Resistance".toList "Ω".toList, "1k".toList⟩
      rfl rfl).1,
   ((encode_dispatch refBase idealR1k
      [⟨"Reference".toList, "R1".toList⟩, ⟨"Value".toList, "old".toList⟩]).2 rfl).1⟩

/-! ## Parameter catalogs -/

/-- C15: a SIM_MODEL_IDEAL constructed for type R, C or L has exactly one
parameter, unset, of value type float and category PRINCIPAL, named "r" with
unit "Ω", "c" with unit "F", "l" with unit "H" respectively; isInferred is false
and no assertion fails. -/
theorem ideal_catalog (env : SIM_ENV) :
    SIM_MODEL_IDEAL.new env .R
      = ⟨[], { type := .R,
               params := [⟨{ name := "r".toList, type := .TYPE_FLOAT, unit := "Ω".toList,
                             category := .PRINCIPAL, description := "Resistance".toList }, []⟩],
               pins := env.initialPins .R, isInferred := false }⟩
    ∧ SIM_MODEL_IDEAL.new env .C
      = ⟨[], { type := .C,
               params := [⟨{ name := "c".toList, type := .TYPE_FLOAT, unit := "F".toList,
                             category := .PRINCIPAL, description := "Capacitance".toList }, []⟩],
               pins := env.initialPins .C, isInferred := false }⟩
    ∧ SIM_MODEL_IDEAL.new env .L
      = ⟨[], { type := .L,
               params := [⟨{ name := "l".toList, type := .TYPE_FLOAT, unit := "H".toList,
                             category := .PRINCIPAL, description := "Inductance".toList }, []⟩],
               pins := env.initialPins .L, isInferred := false }⟩ :=
  ⟨rfl, rfl, rfl⟩

/-- C16: a SIM_MODEL_BEHAVIORAL constructed for type R_BEHAVIORAL, C_BEHAVIORAL,
L_BEHAVIORAL, V_BEHAVIORAL or I_BEHAVIORAL has exactly one parameter, of value
type string and category PRINCIPAL, named "r", "c", "l", "v", "i" with units "Ω",
"F", "H", "V", "A" respectively; the parameter of the behavioral resistor has
the name of the parameter of the ideal resistor and another value type. -/
theorem behavioral_catalog (env : SIM_ENV) :
    (SIM_MODEL_BEHAVIORAL.new env .R_BEHAVIORAL).val.params.map
        (fun p => (p.info.name, p.info.type, p.info.category, p.info.unit))
      = [("r".toList, .TYPE_STRING, .PRINCIPAL, "Ω".toList)]
    ∧ (SIM_MODEL_BEHAVIORAL.new env .C_BEHAVIORAL).val.params.map
        (fun p => (p.info.name, p.info.type, p.info.category, p.info.unit))
      = [("c".toList, .TYPE_STRING, .PRINCIPAL, "F".toList)]
    ∧ (SIM_MODEL_BEHAVIORAL.new env .L_BEHAVIORAL).val.params.map
        (fun p => (p.info.name, p.info.type, p.info.category, p.info.unit))
      = [("l".toList, .TYPE_STRING, .PRINCIPAL, "H".toList)]
    ∧ (SIM_MODEL_BEHAVIORAL.new env .V_BEHAVIORAL).val.params.map
        (fun p => (p.info.name, p.info.type, p.info.category, p.info.unit))
      = [("v".toList, .TYPE_STRING, .PRINCIPAL, "V".toList)]
    ∧ (SIM_MODEL_BEHAVIORAL.new env .I_BEHAVIORAL).val.params.map
        (fun p => (p.info.name, p.info.type, p.info.category, p.info.unit))
      = [("i".toList, .TYPE_STRING, .PRINCIPAL, "A".toList)]
    ∧ (SIM_MODEL_BEHAVIORAL.new env .R_BEHAVIORAL).val.params.map (fun p => p.info.name)
      = (SIM_MODEL_IDEAL.new env .R).val.params.map (fun p => p.info.name)
    ∧ (SIM_MODEL_BEHAVIORAL.new env .R_BEHAVIORAL).val.params.map (fun p => p.info.type)
      ≠ (SIM_MODEL_IDEAL.new env .R).val.params.map (fun p => p.info.type) :=
  ⟨rfl, rfl, rfl, rfl, rfl, rfl, by
    show [SIM_VALUE.TYPE.TYPE_STRING] ≠ [SIM_VALUE.TYPE.TYPE_FLOAT]
    decide⟩

/-! ## Round trip of the inferred behavioral model -/

/-- The Value text the behavioral encode writes for a non-empty expression e is
"=" followed by e, and the inference path reads it back as e, when e has no
whitespace at its ends and the heuristic derives the type of the model. -/
theorem behavioral_roundtrip_of_trimmed (env : SIM_BASE) (m : SIM_MODEL) (p : PARAM)
    (aFields : List FIELD) (hp : m.params = [p]) (hs : p.info.type = .TYPE_STRING)
    (hne : p.value ≠ []) (htrim : trim_copy p.value = p.value) :
    SIM_MODEL_BEHAVIORAL.inferredWriteDataFields env m aFields
        = .ok (env.WriteInferredDataFields m aFields ('=' :: p.value))
    ∧ ∀ (m0 : SIM_MODEL) (p0 : PARAM) (n : Nat) (fs : List FIELD) (pins : List PIN),
        m0.params = [p0] → p0.info.type = .TYPE_STRING →
        env.ParsePinsField n (GetFieldValue fs env.PINS_FIELD) m0.pins = .ok pins →
        env.InferTypeFromRefAndValue (GetFieldValue fs env.REFERENCE_FIELD)
          (GetFieldValue fs env.VALUE_FIELD) = m0.type →
        GetFieldValue fs env.VALUE_FIELD = '=' :: p.value →
        SIM_MODEL_BEHAVIORAL.inferredReadDataFields env.toSIM_ENV m0 n fs
          = .ok { m0 with pins := pins, params := [{ p0 with value := p.value }],
                          isInferred := true } := by
  constructor
  · simp [SIM_MODEL_BEHAVIORAL.inferredWriteDataFields, GetParam, hp, SIM_VALUE.ToString, hs, hne]
  · intro m0 p0 n fs pins hp0 hs0 hpins hinf hval
    rw [inferredReadDataFields_eq env.toSIM_ENV m0 p0 n fs pins hp0 hs0 hpins]
    have he : '=' ∈ GetFieldValue fs env.VALUE_FIELD := by rw [hval]; simp
    rw [if_pos ⟨hinf, he⟩, hval]
    have hr : replace_first ('=' :: p.value) ['='] [] = p.value :=
      replace_first_assign [] p.value (by simp)
    rw [hr, htrim]

/-- The inference path never reads the Value text "=" followed by the marker
back as the empty value of an inferred model: on a model that is not inferred
yet, either the marker itself becomes the value of the parameter or the model is
left as it is. -/
theorem behavioral_marker_assignment_not_empty (env : SIM_ENV) (m0 : SIM_MODEL) (p0 : PARAM)
    (n : Nat) (fs : List FIELD) (pins : List PIN) (m1 : SIM_MODEL)
    (hp0 : m0.params = [p0]) (hs0 : p0.info.type = .TYPE_STRING)
    (hfresh : m0.isInferred = false)
    (hpins : env.ParsePinsField n (GetFieldValue fs env.PINS_FIELD) m0.pins = .ok pins)
    (hval : GetFieldValue fs env.VALUE_FIELD
      = '=' :: (env.DeviceTypeInfo (env.GetDeviceType m0.type)).fieldValue)
    (hmarker : trim_copy (env.DeviceTypeInfo (env.GetDeviceType m0.type)).fieldValue ≠ [])
    (hread : SIM_MODEL_BEHAVIORAL.inferredReadDataFields env m0 n fs = .ok m1) :
    ¬ (m1.isInferred = true ∧ m1.params.map (fun p => p.value) = [[]]) := by
  rw [inferredReadDataFields_eq env m0 p0 n fs pins hp0 hs0 hpins] at hread
  have hne : GetFieldValue fs env.VALUE_FIELD
      ≠ (env.DeviceTypeInfo (env.GetDeviceType m0.type)).fieldValue := by
    intro h
    have := congrArg List.length (hval.symm.trans h)
    simp at this
  rw [if_neg hne] at hread
  have hr : replace_first ('=' :: (env.DeviceTypeInfo (env.GetDeviceType m0.type)).fieldValue)
      ['='] [] = (env.DeviceTypeInfo (env.GetDeviceType m0.type)).fieldValue :=
    replace_first_assign [] _ (by simp)
  split at hread
  · injection hread with hread
    subst hread
    rw [hval, hr]
    simp [hmarker]
  · injection hread with hread
    subst hread
    simp [hfresh]

/-- C14 fails on the code at the empty value. For an inferred behavioral resistor
whose parameter r is unset, inferredWriteDataFields writes the Value text "=R",
the marker of the device type behind an "="; the inference path of a fresh
behavioral resistor reads "=R" as an assignment and installs r = "R", not the
empty value the model had. -/
theorem behavioral_roundtrip_empty_value :
    SIM_MODEL_BEHAVIORAL.inferredWriteDataFields refBase
        { type := .R_BEHAVIORAL,
          params := [⟨SIM_MODEL_BEHAVIORAL.makeParams "r".toList
                        "Expression for resistance".toList "Ω".toList, []⟩],
          pins := twoPins, isInferred := true }
        [⟨"Reference".toList, "R1".toList⟩, ⟨"Value".toList, "R".toList⟩]
      = .ok [⟨"Reference".toList, "R1".toList⟩, ⟨"Value".toList, "=R".toList⟩]
    ∧ SIM_MODEL_BEHAVIORAL.inferredReadDataFields refEnv
        (SIM_MODEL_BEHAVIORAL.new refEnv .R_BEHAVIORAL).val 2
        [⟨"Reference".toList, "R1".toList⟩, ⟨"Value".toList, "=R".toList⟩]
      = .ok { type := .R_BEHAVIORAL,
              params := [⟨SIM_MODEL_BEHAVIORAL.makeParams "r".toList
                            "Expression for resistance".toList "Ω".toList, "R".toList⟩],
              pins := twoPins, isInferred := true } :=
  ⟨rfl, rfl⟩

/-! ## Pin assignments of the dialog -/

theorem pins_get_append_length (pre rest : List PIN) (p : PIN) :
    (pre ++ p :: rest).get? pre.length = some p := by
  rw [List.get?_eq_getElem?, List.getElem?_append_right (le_refl _)]
  simp

theorem GetPin_append (m : SIM_MODEL) (pre rest : List PIN) (p : PIN) :
    GetPin { m with pins := pre ++ p :: rest } (pre.length : Int) = .ok p := by
  have h := pins_get_append_length pre rest p
  simp only [GetPin, Int.toNat_ofNat, h]
  simp

theorem SetPinSymbolPinNumber_append (m : SIM_MODEL) (pre rest : List PIN) (p : PIN) (s : Str) :
    SetPinSymbolPinNumber { m with pins := pre ++ p :: rest } (pre.length : Int) s
      = .ok { m with pins := pre ++ { p with symbolPinNumber := s } :: rest } := by
  have h := pins_get_append_length pre rest p
  simp only [SetPinSymbolPinNumber, Int.toNat_ofNat, h]
  simp

/-- The loop of removeOrphanedPinAssignments, started behind the pins `pre` with
enough fuel for the pins `post`, reconciles each pin of `post`. -/
theorem removeOrphanedPinAssignments_loop_eq (sym : List LIB_PIN) (post : List PIN) :
    ∀ (pre : List PIN) (fuel : Nat) (m : SIM_MODEL), post.length ≤ fuel →
      removeOrphanedPinAssignments.loop sym fuel pre.length { m with pins := pre ++ post }
        = .ok { m with pins := pre ++ post.map (reconciled sym) } := by
  induction post with
  | nil =>
    intro pre fuel m _
    cases fuel <;> simp [removeOrphanedPinAssignments.loop]
  | cons p rest ih =>
    intro pre fuel m hfuel
    obtain ⟨f, rfl⟩ : ∃ f, fuel = f + 1 := ⟨fuel - 1, by simp at hfuel; omega⟩
    have hf : rest.length ≤ f := by simp at hfuel; omega
    have hlen : ∀ q : PIN, (pre ++ [q]).length = pre.length + 1 := by intro q; simp
    have hlt : pre.length < (pre ++ p :: rest).length := by simp
    rw [removeOrphanedPinAssignments.loop]
    simp only [hlt, if_true, GetPin_append]
    by_cases hany : sym.any (fun symbolPin => p.symbolPinNumber = symbolPin.number) = true
    · have := ih (pre ++ [p]) f m hf
      rw [hlen] at this
      simp only [hany, Bool.not_true, Bool.false_eq_true, if_false]
      simpa [reconciled, hany] using this
    · have := ih (pre ++ [{ p with symbolPinNumber := [] }]) f m hf
      rw [hlen] at this
      have hany2 : sym.any (fun symbolPin => p.symbolPinNumber = symbolPin.number) = false := by
        simpa using hany
      simp only [hany2, Bool.not_false, if_true, SetPinSymbolPinNumber_append]
      simpa [reconciled, hany2] using this

/-- The function removeOrphanedPinAssignments returns, and what it returns is the
model with each pin reconciled. -/
theorem removeOrphanedPinAssignments_eq (sym : List LIB_PIN) (m : SIM_MODEL) :
    removeOrphanedPinAssignments sym m = .ok { m with pins := m.pins.map (reconciled sym) } := by
  have := removeOrphanedPinAssignments_loop_eq sym m.pins [] m.pins.length m (le_refl _)
  simpa [removeOrphanedPinAssignments] using this

theorem reconciled_of_empty (sym : List LIB_PIN) (p : PIN) (h : p.symbolPinNumber = []) :
    reconciled sym p = p := by
  unfold reconciled
  split
  · rfl
  · cases p; simp_all

theorem reconciled_of_matched (sym : List LIB_PIN) (p : PIN)
    (h : ∃ s ∈ sym, s.number = p.symbolPinNumber) : reconciled sym p = p := by
  obtain ⟨s, hs, he⟩ := h
  have : sym.any (fun symbolPin => p.symbolPinNumber = symbolPin.number) = true := by
    rw [List.any_eq_true]
    exact ⟨s, hs, by simp [he]⟩
  simp [reconciled, this]

theorem reconciled_of_orphaned (sym : List LIB_PIN) (p : PIN)
    (h : ∀ s ∈ sym, s.number ≠ p.symbolPinNumber) :
    reconciled sym p = { p with symbolPinNumber := [] } := by
  have : sym.any (fun symbolPin => p.symbolPinNumber = symbolPin.number) = false := by
    rw [List.any_eq_false]
    intro s hs
    have := h s hs
    simpa using fun e => this e.symm
  simp [reconciled, this]

theorem reconciled_idem (sym : List LIB_PIN) (p : PIN) :
    reconciled sym (reconciled sym p) = reconciled sym p := by
  by_cases h : sym.any (fun symbolPin => p.symbolPinNumber = symbolPin.number) = true
  · simp [reconciled, h]
  · have h1 : reconciled sym p = { p with symbolPinNumber := [] } := by simp [reconciled, h]
    rw [h1]
    exact reconciled_of_empty sym _ rfl

/-- C19: removeOrphanedPinAssignments returns a model with the same number of
pins; a pin whose symbol pin number is the number of no pin of the symbol is
unassigned afterwards, a pin whose symbol pin number is the number of some pin
of the symbol is unchanged, and nothing but the symbol pin numbers changes. -/
theorem orphan_reconciliation (sym : List LIB_PIN) (m : SIM_MODEL) :
    ∃ m1 : SIM_MODEL, removeOrphanedPinAssignments sym m = .ok m1
      ∧ m1.pins.length = m.pins.length
      ∧ m1.type = m.type ∧ m1.params = m.params ∧ m1.isInferred = m.isInferred
      ∧ ∀ (i : Nat) (p : PIN), m.pins.get? i = some p →
          ((∀ s ∈ sym, s.number ≠ p.symbolPinNumber) →
            m1.pins.get? i = some { p with symbolPinNumber := [] })
          ∧ ((∃ s ∈ sym, s.number = p.symbolPinNumber) → m1.pins.get? i = some p) := by
  refine ⟨_, removeOrphanedPinAssignments_eq sym m, by simp, rfl, rfl, rfl, ?_⟩
  intro i p hp
  have hmap : (m.pins.map (reconciled sym)).get? i = some (reconciled sym p) := by
    rw [List.get?_eq_getElem?] at hp ⊢
    simp [hp]
  constructor
  · intro h
    rw [← reconciled_of_orphaned sym p h]; exact hmap
  · intro h
    rw [reconciled_of_matched sym p h] at hmap
    exact hmap

/-- C20: removeOrphanedPinAssignments is idempotent: run on its own result, with
the same pins of the symbol, it returns that result again. -/
theorem removeOrphaned_twice_eq_once (sym : List LIB_PIN) (m : SIM_MODEL) :
    (removeOrphanedPinAssignments sym m).bind (removeOrphanedPinAssignments sym)
      = removeOrphanedPinAssignments sym m := by
  rw [removeOrphanedPinAssignments_eq sym m]
  show removeOrphanedPinAssignments sym _ = _
  rw [removeOrphanedPinAssignments_eq]
  simp [reconciled_idem]

/-- C18: a cell change of the pin grid that moves the symbol pin P of its row
from model pin j, which held P, to another model pin i returns a model in which
pin j is unassigned, pin i holds P, every other pin is as before, and the symbol
pin numbers are unique again. The model it starts from has unique symbol pin
numbers and is the reconciled one the grid was built from: each symbol pin
number it holds is the number of a pin of the symbol. This holds for every pin
i, and so for each of the offered pins, which hold no symbol pin number. -/
theorem pin_reassignment (denv : DIALOG_ENV) (sym : List LIB_PIN) (m : SIM_MODEL)
    (aRow : Int) (aOldString aNewString : Str) (i j : Nat) (pi pj : PIN) (symbolPin : LIB_PIN)
    (hrow : 0 ≤ aRow) (hsym : sym.get? aRow.toNat = some symbolPin)
    (hshown : symbolPin.shownNumber = symbolPin.number)
    (hold : getModelPinIndex denv aOldString = (j : Int))
    (hnew : getModelPinIndex denv aNewString = (i : Int))
    (hjc : (j : Int) ≠ denv.NOT_CONNECTED) (hic : (i : Int) ≠ denv.NOT_CONNECTED)
    (hij : i ≠ j)
    (hpj : m.pins.get? j = some pj) (hpi : m.pins.get? i = some pi)
    (hheld : pj.symbolPinNumber = symbolPin.shownNumber)
    (huniq : uniquePinNumbers m.pins)
    (hrec : ∀ p ∈ m.pins, p.symbolPinNumber ≠ [] → ∃ s ∈ sym, s.number = p.symbolPinNumber) :
    ∃ (m1 : SIM_MODEL) (grid : PIN_GRID),
      onPinAssignmentsGridCellChange denv sym m aRow aOldString aNewString = .ok (m1, grid)
      ∧ m1.pins.length = m.pins.length
      ∧ m1.pins.get? j = some { pj with symbolPinNumber := [] }
      ∧ m1.pins.get? i = some { pi with symbolPinNumber := symbolPin.shownNumber }
      ∧ (∀ k : Nat, k ≠ i → k ≠ j → m1.pins.get? k = m.pins.get? k)
      ∧ uniquePinNumbers m1.pins := by
  rw [List.get?_eq_getElem?] at hsym hpj hpi
  have hsmem : symbolPin ∈ sym := List.getElem?_mem hsym
  -- the pins after the two writes
  have hpi2 : (m.pins.set j { pj with symbolPinNumber := [] })[i]? = some pi := by
    rw [List.getElem?_set_ne (Ne.symm hij)]; exact hpi
  have hfix : ∀ p ∈ (m.pins.set j { pj with symbolPinNumber := [] }).set i
      { pi with symbolPinNumber := symbolPin.shownNumber }, reconciled sym p = p := by
    intro p hp
    rcases List.mem_or_eq_of_mem_set hp with hp | rfl
    · rcases List.mem_or_eq_of_mem_set hp with hp | rfl
      · by_cases he : p.symbolPinNumber = []
        · exact reconciled_of_empty sym p he
        · exact reconciled_of_matched sym p (hrec p hp he)
      · exact reconciled_of_empty sym _ rfl
    · exact reconciled_of_matched sym _ ⟨symbolPin, hsmem, hshown.symm⟩
  have hmap : ((m.pins.set j { pj with symbolPinNumber := [] }).set i
      { pi with symbolPinNumber := symbolPin.shownNumber }).map (reconciled sym)
      = (m.pins.set j { pj with symbolPinNumber := [] }).set i
          { pi with symbolPinNumber := symbolPin.shownNumber } := by
    rw [List.map_congr_left hfix, List.map_id']
  have hrun : ∃ (m1 : SIM_MODEL) (grid : PIN_GRID),
      onPinAssignmentsGridCellChange denv sym m aRow aOldString aNewString = .ok (m1, grid)
      ∧ m1.pins = (m.pins.set j { pj with symbolPinNumber := [] }).set i
          { pi with symbolPinNumber := symbolPin.shownNumber } := by
    simp only [onPinAssignmentsGridCellChange, hold, hnew, SetPinSymbolPinNumber,
      List.get?_eq_getElem?, Int.toNat_ofNat, hpj, hpi2, hsym, hrow, updatePinAssignments,
      removeOrphanedPinAssignments_eq, hmap]
    simp [hjc, hic, hpi2, hmap]
  obtain ⟨m1, grid, hrun, hm1⟩ := hrun
  have hjlt : j < m.pins.length := (List.getElem?_eq_some_iff.mp hpj).1
  have hilt : i < m.pins.length := (List.getElem?_eq_some_iff.mp hpi).1
  have hgetj : ((m.pins.set j { pj with symbolPinNumber := [] }).set i
      { pi with symbolPinNumber := symbolPin.shownNumber })[j]?
      = some { pj with symbolPinNumber := [] } := by
    rw [List.getElem?_set_ne hij, List.getElem?_set_self hjlt]
  have hgeti : ((m.pins.set j { pj with symbolPinNumber := [] }).set i
      { pi with symbolPinNumber := symbolPin.shownNumber })[i]?
      = some { pi with symbolPinNumber := symbolPin.shownNumber } := by
    rw [List.getElem?_set_self (by simpa using hilt)]
  have hgetk : ∀ k : Nat, k ≠ i → k ≠ j →
      ((m.pins.set j { pj with symbolPinNumber := [] }).set i
        { pi with symbolPinNumber := symbolPin.shownNumber })[k]? = m.pins[k]? := by
    intro k hki hkj
    rw [List.getElem?_set_ne (Ne.symm hki), List.getElem?_set_ne (Ne.symm hkj)]
  refine ⟨m1, grid, hrun, by simp [hm1], ?_, ?_, ?_, ?_⟩
  all_goals rw [hm1]
  · simpa [List.get?_eq_getElem?] using hgetj
  · simpa [List.get?_eq_getElem?] using hgeti
  · intro k hki hkj
    simpa [List.get?_eq_getElem?] using hgetk k hki hkj
  · intro a b pa pb ha hb hab hne
    simp only [List.get?_eq_getElem?] at ha hb
    by_cases hai : a = i
    · subst hai
      rw [hgeti] at ha
      injection ha with ha
      subst ha
      by_cases hbj : b = j
      · subst hbj
        rw [hgetj] at hb
        injection hb with hb
        subst hb
        exact hne
      · rw [hgetk b (Ne.symm hab) hbj] at hb
        have := huniq j b pj pb (by simpa [List.get?_eq_getElem?] using hpj)
          (by simpa [List.get?_eq_getElem?] using hb) (Ne.symm hbj)
          (by rw [hheld]; exact hne)
        rw [hheld] at this
        exact this
    · by_cases haj : a = j
      · subst haj
        rw [hgetj] at ha
        injection ha with ha
        subst ha
        exact absurd rfl hne
      · rw [hgetk a hai haj] at ha
        by_cases hbi : b = i
        · subst hbi
          rw [hgeti] at hb
          injection hb with hb
          subst hb
          have := huniq a j pa pj (by simpa [List.get?_eq_getElem?] using ha)
            (by simpa [List.get?_eq_getElem?] using hpj) haj hne
          rw [hheld] at this
          exact this
        · by_cases hbj : b = j
          · subst hbj
            rw [hgetj] at hb
            injection hb with hb
            subst hb
            exact hne
          · rw [hgetk b hbi hbj] at hb
            exact huniq a b pa pb (by simpa [List.get?_eq_getElem?] using ha)
              (by simpa [List.get?_eq_getElem?] using hb) hab hne

/-! ## Parameter grid of the dialog -/

theorem modifyCategory_append (label : Str) (f : Bool → List Int → GRID_ITEM)
    (pre post : List GRID_ITEM) (hidden : Bool) (children : List Int)
    (hpre : ∀ x ∈ pre, x.isCategory label = false) :
    modifyCategory label f (pre ++ .category label hidden children :: post)
      = pre ++ f hidden children :: post := by
  induction pre with
  | nil => simp [modifyCategory]
  | cons x xs ih =>
    have hx := hpre x (List.mem_cons_self x xs)
    have hxs : ∀ y ∈ xs, y.isCategory label = false :=
      fun y hy => hpre y (List.mem_cons_of_mem x hy)
    cases x with
    | property k => simp [modifyCategory, ih hxs]
    | category l h c =>
      have hl : ¬ (l = label) := by simpa [GRID_ITEM.isCategory] using hx
      simp [modifyCategory, hl, ih hxs]

theorem wxPropertyGrid_Insert_append (priorThis : Str) (aParamIndex : Int)
    (pre post : List GRID_ITEM) (hidden : Bool) (children : List Int)
    (hpre : ∀ x ∈ pre, x.isCategory priorThis = false) :
    wxPropertyGrid.Insert (pre ++ .category priorThis hidden children :: post) priorThis
        aParamIndex
      = pre ++ .property aParamIndex :: .category priorThis hidden children :: post := by
  induction pre with
  | nil => simp [wxPropertyGrid.Insert, GRID_ITEM.isCategory]
  | cons x xs ih =>
    have hx := hpre x (List.mem_cons_self x xs)
    have hxs : ∀ y ∈ xs, y.isCategory priorThis = false :=
      fun y hy => hpre y (List.mem_cons_of_mem x hy)
    simp [wxPropertyGrid.Insert, hx, ih hxs]

theorem wxPropertyGrid_AppendIn_HideProperty (label : Str) (aParamIndex : Int)
    (pre post : List GRID_ITEM) (hidden : Bool) (children : List Int)
    (hpre : ∀ x ∈ pre, x.isCategory label = false) :
    wxPropertyGrid.AppendIn
        (wxPropertyGrid.HideProperty (pre ++ .category label hidden children :: post) label false)
        label aParamIndex
      = pre ++ .category label false (children ++ [aParamIndex]) :: post := by
  unfold wxPropertyGrid.AppendIn wxPropertyGrid.HideProperty
  rw [modifyCategory_append label _ pre post hidden children hpre,
    modifyCategory_append label _ pre post false children hpre]

/-- C17: addParamPropertyIfRelevant follows the classification rule. For a
parameter whose bucket is none (direction OUT, whatever the category, or
category INITIAL_CONDITIONS or SUPERFLUOUS) the grid is left as it is. For a
principal parameter one property is put at top level, right before the first
category. For every other parameter one property is put last in the category
named after the category of the parameter, which is shown; the rest of the grid
is unchanged. -/
theorem param_classification (m_firstCategory : Str) (m : SIM_MODEL)
    (grid : List GRID_ITEM) (aParamIndex : Nat) (param : PARAM)
    (h0 : GetParam m aParamIndex = .ok param) :
    (bucketOf param.info.dir param.info.category = .none →
      addParamPropertyIfRelevant m_firstCategory m grid aParamIndex = .ok grid)
    ∧ (bucketOf param.info.dir param.info.category = .topLevel →
      ∀ (pre post : List GRID_ITEM) (hidden : Bool) (children : List Int),
        grid = pre ++ .category m_firstCategory hidden children :: post →
        (∀ x ∈ pre, x.isCategory m_firstCategory = false) →
        addParamPropertyIfRelevant m_firstCategory m grid aParamIndex
          = .ok (pre ++ .property aParamIndex
              :: .category m_firstCategory hidden children :: post))
    ∧ (∀ label : Str, bucketOf param.info.dir param.info.category = .named label →
      ∀ (pre post : List GRID_ITEM) (hidden : Bool) (children : List Int),
        grid = pre ++ .category label hidden children :: post →
        (∀ x ∈ pre, x.isCategory label = false) →
        addParamPropertyIfRelevant m_firstCategory m grid aParamIndex
          = .ok (pre ++ .category label false (children ++ [(aParamIndex : Int)]) :: post)) := by
  have hneg : ¬ ((aParamIndex : Int) < 0) := by omega
  by_cases hd : param.info.dir = .DIR_OUT
  · simp [bucketOf, hd, addParamPropertyIfRelevant, h0]
  · refine ⟨?_, ?_, ?_⟩
    · intro hb
      cases hc : param.info.category <;>
        simp [bucketOf, hd, hc] at hb <;>
        simp [addParamPropertyIfRelevant, h0, hd, hc]
    · intro hb pre post hidden children hg hpre
      cases hc : param.info.category <;>
        simp [bucketOf, hd, hc] at hb
      subst hg
      simp [addParamPropertyIfRelevant, h0, hd, hc,
        wxPropertyGrid_Insert_append m_firstCategory _ pre post hidden children hpre]
    · intro label hb pre post hidden children hg hpre
      subst hg
      cases hc : param.info.category <;>
        simp [bucketOf, hd, hc] at hb <;>
        subst hb <;>
        simp only [addParamPropertyIfRelevant, hneg, if_false, Int.toNat_ofNat, h0, hd, hc] <;>
        exact congrArg Except.ok
          (wxPropertyGrid_AppendIn_HideProperty _ _ pre post hidden children hpre)

/-- The cell change of row 2, the symbol pin "3", from the label "2 (-)" of model
pin 1 to the label "1 (+)" of model pin 0, which is among the offered choices:
model pin 0 holds "3" afterwards and model pin 1 is unassigned. -/
theorem pin_reassignment_witness :
    (∃ (m1 : SIM_MODEL) (grid : PIN_GRID),
      onPinAssignmentsGridCellChange refDialog threeSymbolPins pinsHeld 2
          "2 (-)".toList "1 (+)".toList = .ok (m1, grid)
      ∧ m1.pins.length = pinsHeld.pins.length
      ∧ m1.pins.get? 1 = some ⟨"-".toList, []⟩
      ∧ m1.pins.get? 0 = some ⟨"+".toList, "3".toList⟩
      ∧ (∀ k : Nat, k ≠ 0 → k ≠ 1 → m1.pins.get? k = pinsHeld.pins.get? k)
      ∧ uniquePinNumbers m1.pins)
    ∧ "1 (+)".toList ∈ getModelPinChoices refDialog pinsHeld
    ∧ (onPinAssignmentsGridCellChange refDialog threeSymbolPins pinsHeld 2
          "2 (-)".toList "1 (+)".toList).map (fun r => (r.1.pins, r.2.modelColumn))
        = .ok ([⟨"+".toList, "3".toList⟩, ⟨"-".toList, []⟩],
               ["Not Connected".toList, "Not Connected".toList, "1 (+)".toList]) :=
  ⟨pin_reassignment refDialog threeSymbolPins pinsHeld 2 "2 (-)".toList "1 (+)".toList 0 1
      ⟨"+".toList, []⟩ ⟨"-".toList, "3".toList⟩ ⟨"3".toList, "3".toList, []⟩
      (by decide) rfl rfl rfl rfl (by decide) (by decide) (by decide) rfl rfl rfl
      (by
        intro a b pa pb ha hb hab hne
        rcases a with _ | _ | a
        · simp [pinsHeld] at ha; subst ha; exact absurd rfl hne
        · rcases b with _ | _ | b
          · simp [pinsHeld] at ha hb; subst ha; subst hb; decide
          · exact absurd rfl hab
          · simp [pinsHeld] at hb
        · simp [pinsHeld] at ha)
      (by
        intro p hp hne
        simp [pinsHeld] at hp
        rcases hp with rfl | rfl
        · exact absurd rfl hne
        · exact ⟨⟨"3".toList, "3".toList, []⟩, by simp [threeSymbolPins], rfl⟩),
   by decide, rfl⟩

/-- The reconciliation of a model whose third pin holds "9" against the symbol
pins 1, 2, 3: the third pin is unassigned, the pin that holds "3" keeps it. -/
theorem orphan_reconciliation_witness :
    (∃ m1 : SIM_MODEL, removeOrphanedPinAssignments threeSymbolPins pinsOrphaned = .ok m1
      ∧ m1.pins.length = pinsOrphaned.pins.length
      ∧ m1.type = pinsOrphaned.type ∧ m1.params = pinsOrphaned.params
      ∧ m1.isInferred = pinsOrphaned.isInferred
      ∧ ∀ (i : Nat) (p : PIN), pinsOrphaned.pins.get? i = some p →
          ((∀ s ∈ threeSymbolPins, s.number ≠ p.symbolPinNumber) →
            m1.pins.get? i = some { p with symbolPinNumber := [] })
          ∧ ((∃ s ∈ threeSymbolPins, s.number = p.symbolPinNumber) → m1.pins.get? i = some p))
    ∧ removeOrphanedPinAssignments threeSymbolPins pinsOrphaned
      = .ok { pinsOrphaned with
              pins := [⟨"+".toList, []⟩, ⟨"-".toList, "3".toList⟩, ⟨"x".toList, []⟩] } :=
  ⟨orphan_reconciliation threeSymbolPins pinsOrphaned, rfl⟩

/-- The classification of the four parameters of a model on the grid as it is
set up: the principal parameter goes right before "Geometry", the AC parameter
into the category "AC", which is shown; the output parameter and the superfluous
parameter leave the grid as it is. -/
theorem param_classification_witness :
    addParamPropertyIfRelevant "Geometry".toList fourParams initialParamGrid ((0 : Nat) : Int)
      = .ok ([] ++ .property ((0 : Nat) : Int)
          :: .category "Geometry".toList true [] :: initialParamGrid.tail)
    ∧ addParamPropertyIfRelevant "Geometry".toList fourParams initialParamGrid ((1 : Nat) : Int)
      = .ok ([.category "Geometry".toList true []]
          ++ .category "AC".toList false ([] ++ [((1 : Nat) : Int)])
          :: initialParamGrid.tail.tail)
    ∧ addParamPropertyIfRelevant "Geometry".toList fourParams initialParamGrid ((2 : Nat) : Int)
      = .ok initialParamGrid
    ∧ addParamPropertyIfRelevant "Geometry".toList fourParams initialParamGrid ((3 : Nat) : Int)
      = .ok initialParamGrid :=
  ⟨(param_classification "Geometry".toList fourParams initialParamGrid 0 _ rfl).2.1 rfl
      [] initialParamGrid.tail true [] rfl (by simp),
   (param_classification "Geometry".toList fourParams initialParamGrid 1 _ rfl).2.2
      "AC".toList rfl [.category "Geometry".toList true []] initialParamGrid.tail.tail true []
      rfl (by simp [GRID_ITEM.isCategory]),
   (param_classification "Geometry".toList fourParams initialParamGrid 2 _ rfl).1 rfl,
   (param_classification "Geometry".toList fourParams initialParamGrid 3 _ rfl).1 rfl⟩

/-! ## Further properties of the netlist lines and of the inference -/

/-- C27: the item lines of the Ideal and of the Behavioral generator do not
depend on the model name: for every model state, reference, pin list and net
list, any two model names give the same result. -/
theorem ItemLine_ignores_model_name (env : SIM_ENV) (m : SIM_MODEL) (aRefName n1 n2 : Str)
    (aSymbolPinNumbers aPinNetNames : List Str) :
    SPICE_GENERATOR_IDEAL.ItemLine env m aRefName n1 aSymbolPinNumbers aPinNetNames
      = SPICE_GENERATOR_IDEAL.ItemLine env m aRefName n2 aSymbolPinNumbers aPinNetNames
    ∧ SPICE_GENERATOR_BEHAVIORAL.ItemLine env m aRefName n1 aSymbolPinNumbers aPinNetNames
      = SPICE_GENERATOR_BEHAVIORAL.ItemLine env m aRefName n2 aSymbolPinNumbers aPinNetNames :=
  ⟨rfl, rfl⟩

/-- C24: on a model whose parameter 0 is a string parameter, parseValueField
returns; it returns true if and only if the Value text contains "="; when it
returns false the model is as before; when it returns true, for the Value text
`name=expr` with no "=" in `name`, parameter 0 holds `name` followed by `expr`,
with leading and trailing whitespace removed: only the first "=" is deleted, what
stands before it and every later "=" are kept. -/
theorem parseValueField_spec (env : SIM_ENV) (m : SIM_MODEL) (p : PARAM) (aValueField : Str)
    (hp : m.params.get? 0 = some p) (hs : p.info.type = .TYPE_STRING) :
    ∃ (result : Bool) (m1 : SIM_MODEL),
      SIM_MODEL_BEHAVIORAL.parseValueField env m aValueField = .ok (result, m1)
      ∧ (result = true ↔ '=' ∈ aValueField)
      ∧ (result = false → m1 = m)
      ∧ (result = true → ∀ name expr : Str, aValueField = name ++ '=' :: expr → '=' ∉ name →
          m1.params = m.params.set 0 { p with value := trim_copy (name ++ expr) }
          ∧ m1.type = m.type ∧ m1.pins = m.pins) := by
  by_cases he : '=' ∈ aValueField
  · have hf : ¬ (find aValueField ['='] = none) := by
      rw [find_eq_none_iff]; exact fun h => h he
    refine ⟨true, { m with
      params := m.params.set 0
        { p with value := trim_copy (replace_first aValueField ['='] []) },
      isInferred := false }, ?_, by simp [he], by simp, ?_⟩
    · have hp2 : m.params[0]? = some p := by simpa using hp
      simp [SIM_MODEL_BEHAVIORAL.parseValueField, hf, SetParamValue, hp2, hs]
    · intro _ name expr hv hname
      subst hv
      rw [replace_first_assign name expr hname]
      exact ⟨rfl, rfl, rfl⟩
  · have hf : find aValueField ['='] = none := by
      rw [find_eq_none_iff]; exact he
    exact ⟨false, m, by simp [SIM_MODEL_BEHAVIORAL.parseValueField, hf], by simp [he],
      fun _ => rfl, by simp⟩

/-- The Value text "a = b=c " on a fresh behavioral resistor: parseValueField
returns true and parameter r holds "a  b=c"; the first "=" is gone, "a" and the
second "=" are kept. The Value text "10k" returns false and leaves the model. -/
theorem parseValueField_spec_witness :
    (∃ (result : Bool) (m1 : SIM_MODEL),
      SIM_MODEL_BEHAVIORAL.parseValueField refEnv
          (SIM_MODEL_BEHAVIORAL.new refEnv .R_BEHAVIORAL).val "a = b=c ".toList = .ok (result, m1)
      ∧ (result = true ↔ '=' ∈ "a = b=c ".toList)
      ∧ (result = false → m1 = (SIM_MODEL_BEHAVIORAL.new refEnv .R_BEHAVIORAL).val)
      ∧ (result = true → ∀ name expr : Str, "a = b=c ".toList = name ++ '=' :: expr →
          '=' ∉ name →
          m1.params = (SIM_MODEL_BEHAVIORAL.new refEnv .R_BEHAVIORAL).val.params.set 0
              { (⟨SIM_MODEL_BEHAVIORAL.makeParams "r".toList "Expression for resistance".toList
                    "Ω".toList, []⟩ : PARAM) with value := trim_copy (name ++ expr) }
          ∧ m1.type = (SIM_MODEL_BEHAVIORAL.new refEnv .R_BEHAVIORAL).val.type
          ∧ m1.pins = (SIM_MODEL_BEHAVIORAL.new refEnv .R_BEHAVIORAL).val.pins))
    ∧ (SIM_MODEL_BEHAVIORAL.parseValueField refEnv
          (SIM_MODEL_BEHAVIORAL.new refEnv .R_BEHAVIORAL).val "a = b=c ".toList).map
        (fun r => (r.1, r.2.params.map (fun q => q.value)))
      = .ok (true, ["a  b=c".toList])
    ∧ SIM_MODEL_BEHAVIORAL.parseValueField refEnv
          (SIM_MODEL_BEHAVIORAL.new refEnv .R_BEHAVIORAL).val "10k".toList
      = .ok (false, (SIM_MODEL_BEHAVIORAL.new refEnv .R_BEHAVIORAL).val) :=
  ⟨parseValueField_spec refEnv (SIM_MODEL_BEHAVIORAL.new refEnv .R_BEHAVIORAL).val
      ⟨SIM_MODEL_BEHAVIORAL.makeParams "r".toList "Expression for resistance".toList
        "Ω".toList, []⟩ "a = b=c ".toList rfl rfl,
   rfl, rfl⟩

/-- C26: updatePinAssignments returns, and in the model it returns, which is the
one removeOrphanedPinAssignments leaves, every pin with a non-empty symbol pin
number has a row: findSymbolPinRow returns a row r, not -1, with r below the
number of pins of the symbol; the pin of the symbol in row r has that number,
and no earlier row has it. -/
theorem refresh_rows_exist (denv : DIALOG_ENV) (sym : List LIB_PIN) (m : SIM_MODEL) :
    ∃ (m1 : SIM_MODEL) (grid : PIN_GRID),
      updatePinAssignments denv sym m = .ok (m1, grid)
      ∧ removeOrphanedPinAssignments sym m = .ok m1
      ∧ ∀ p ∈ m1.pins, p.symbolPinNumber ≠ [] →
          ∃ r : Nat, findSymbolPinRow sym p.symbolPinNumber = (r : Int)
            ∧ r < sym.length
            ∧ (sym.get? r).map (fun s => s.number) = some p.symbolPinNumber
            ∧ ∀ r' : Nat, r' < r →
                (sym.get? r').map (fun s => s.number) ≠ some p.symbolPinNumber := by
  have hrem := removeOrphanedPinAssignments_eq sym m
  have hup : ∃ grid : PIN_GRID, updatePinAssignments denv sym m
      = .ok ({ m with pins := m.pins.map (reconciled sym) }, grid) := by
    simp only [updatePinAssignments, hrem]
    exact ⟨_, rfl⟩
  obtain ⟨grid, hup⟩ := hup
  refine ⟨_, grid, hup, hrem, ?_⟩
  · intro p hp hne
    simp only [List.mem_map] at hp
    obtain ⟨q, _, hq⟩ := hp
    have hany : sym.any (fun symbolPin => q.symbolPinNumber = symbolPin.number) = true := by
      by_contra hc
      have : reconciled sym q = { q with symbolPinNumber := [] } := by simp [reconciled, hc]
      rw [this] at hq
      exact hne (by rw [← hq])
    have hpq : p = q := by rw [← hq]; simp [reconciled, hany]
    subst hpq
    rw [List.any_eq_true] at hany
    obtain ⟨s, hs, hsn⟩ := hany
    have hex : ∃ x, x ∈ sym ∧ (fun pin : LIB_PIN => decide (pin.number = p.symbolPinNumber)) x :=
      ⟨s, hs, by simpa using (of_decide_eq_true hsn).symm⟩
    have hfind := List.findIdx?_eq_some_of_exists hex
    obtain ⟨hlt, hpr, hfirst⟩ := List.findIdx?_eq_some_iff_getElem.mp hfind
    refine ⟨_, by simp only [findSymbolPinRow, hfind], hlt, ?_, ?_⟩
    · rw [List.get?_eq_getElem?, List.getElem?_eq_getElem hlt]
      simpa using hpr
    · intro r' hr'
      have := hfirst r' hr'
      rw [List.get?_eq_getElem?, List.getElem?_eq_getElem (Nat.lt_trans hr' hlt)]
      simpa using this

/-- The refresh of the model whose third pin holds the number 9 of no pin of the
symbol: the pin "-" keeps the symbol pin 3, which is found in row 2, and the
Model column of the grid shows the pin in that row. -/
theorem refresh_rows_exist_witness :
    (∃ (m1 : SIM_MODEL) (grid : PIN_GRID),
      updatePinAssignments refDialog threeSymbolPins pinsOrphaned = .ok (m1, grid)
      ∧ removeOrphanedPinAssignments threeSymbolPins pinsOrphaned = .ok m1
      ∧ ∀ p ∈ m1.pins, p.symbolPinNumber ≠ [] →
          ∃ r : Nat, findSymbolPinRow threeSymbolPins p.symbolPinNumber = (r : Int)
            ∧ r < threeSymbolPins.length
            ∧ (threeSymbolPins.get? r).map (fun s => s.number) = some p.symbolPinNumber
            ∧ ∀ r' : Nat, r' < r →
                (threeSymbolPins.get? r').map (fun s => s.number) ≠ some p.symbolPinNumber)
    ∧ findSymbolPinRow threeSymbolPins "3".toList = 2
    ∧ findSymbolPinRow threeSymbolPins "9".toList = -1
    ∧ (updatePinAssignments refDialog threeSymbolPins pinsOrphaned).map
        (fun r => r.2.modelColumn)
      = .ok ["Not Connected".toList, "Not Connected".toList, "2 (-)".toList] :=
  ⟨refresh_rows_exist refDialog threeSymbolPins pinsOrphaned, rfl, rfl, rfl⟩

/-! ## Labels of the model pins -/

theorem digitChar_facts (d : Nat) (hd : d < 10) :
    (Char.ofNat (48 + d)).isDigit = true
    ∧ (Char.ofNat (48 + d)).toNat - 48 = d
    ∧ isSpace (Char.ofNat (48 + d)) = false
    ∧ Char.ofNat (48 + d) ≠ ' '
    ∧ Char.ofNat (48 + d) ≠ '-'
    ∧ Char.ofNat (48 + d) ≠ '+'
    ∧ Char.ofNat (48 + d) ≠ 'N' := by
  interval_cases d <;> decide

/-- The decimal digits of a number, printed with enough fuel: there is at least
one, each is a digit, and read back in base 10 they give the number. -/
theorem decimalDigits_spec (fuel : Nat) :
    ∀ n : Nat, n < fuel →
      decimalDigits fuel n ≠ []
      ∧ (∀ c ∈ decimalDigits fuel n, c.isDigit = true ∧ isSpace c = false ∧ c ≠ ' ')
      ∧ (∀ c, (decimalDigits fuel n).head? = some c → c ≠ '-' ∧ c ≠ '+' ∧ c ≠ 'N')
      ∧ (decimalDigits fuel n).foldl (fun acc c => acc * 10 + (c.toNat - 48)) 0 = n := by
  induction fuel with
  | zero => intro n h; omega
  | succ f ih =>
    intro n hn
    by_cases h10 : n < 10
    · obtain ⟨h1, h2, h3, h4, h5, h6, h7⟩ := digitChar_facts n h10
      simp only [decimalDigits, h10, if_true]
      refine ⟨by simp, ?_, ?_, ?_⟩
      · intro c hc
        simp only [List.mem_singleton] at hc
        subst hc
        exact ⟨h1, h3, h4⟩
      · intro c hc
        simp only [List.head?_cons, Option.some.injEq] at hc
        subst hc
        exact ⟨h5, h6, h7⟩
      · simp [h2]
    · have hlt : n / 10 < f := by omega
      obtain ⟨r1, r2, r3, r4⟩ := ih (n / 10) hlt
      obtain ⟨h1, h2, h3, h4, _, _, _⟩ := digitChar_facts (n % 10) (Nat.mod_lt n (by decide))
      simp only [decimalDigits, h10, if_false]
      refine ⟨by simp, ?_, ?_, ?_⟩
      · intro c hc
        rcases List.mem_append.mp hc with hc | hc
        · exact r2 c hc
        · simp only [List.mem_singleton] at hc
          subst hc
          exact ⟨h1, h3, h4⟩
      · intro c hc
        cases hds : decimalDigits f (n / 10) with
        | nil => exact absurd hds r1
        | cons x xs =>
          rw [hds] at hc
          simp only [List.cons_append, List.head?_cons, Option.some.injEq] at hc
          subst hc
          exact r3 x (by rw [hds]; rfl)
      · rw [List.foldl_append, r4]
        simp only [List.foldl_cons, List.foldl_nil, h2]
        omega

theorem find_blank_none (s : Str) (h : ' ' ∉ s) : find s [' '] = none := by
  induction s with
  | nil => simp [find]
  | cons c cs ih =>
    have hc : ¬ (' ' = c) := fun e => h (List.mem_cons.mpr (Or.inl e))
    have hcs : ' ' ∉ cs := fun e => h (List.mem_cons.mpr (Or.inr e))
    simp [find, List.isPrefixOf, hc, ih hcs]

theorem find_blank_append (pre post : Str) (h : ' ' ∉ pre) :
    find (pre ++ ' ' :: post) [' '] = some pre.length := by
  induction pre with
  | nil => simp [find, List.isPrefixOf]
  | cons c cs ih =>
    have hc : ¬ (' ' = c) := fun e => h (List.mem_cons.mpr (Or.inl e))
    have hcs : ' ' ∉ cs := fun e => h (List.mem_cons.mpr (Or.inr e))
    simp [find, List.isPrefixOf, hc, ih hcs]

/-- The call ToCLong reads the decimal digits of a number below 2 ^ 63 back as
the number. -/
theorem ToCLong_decimalDigits (n : Nat) (hn : n < 2 ^ 63) :
    ToCLong (decimalDigits (n + 1) n) = (n : Int) := by
  obtain ⟨h1, h2, h3, h4⟩ := decimalDigits_spec (n + 1) n (Nat.lt_succ_self n)
  cases hds : decimalDigits (n + 1) n with
  | nil => exact absurd hds h1
  | cons x xs =>
    rw [hds] at h2 h3 h4
    have hx := h2 x (List.mem_cons_self x xs)
    have hx3 := h3 x rfl
    have hdrop : (x :: xs).dropWhile isSpace = x :: xs := by
      simp [List.dropWhile, hx.2.1]
    have htake : (x :: xs).takeWhile Char.isDigit = x :: xs := by
      rw [List.takeWhile_eq_self_iff]
      intro c hc
      exact (h2 c hc).1
    have hminus : ¬ (x = '-') := hx3.1
    have hplus : ¬ (x = '+') := hx3.2.1
    have hrange : ¬ ((n : Int) < -(2 ^ 63) ∨ 2 ^ 63 - 1 < (n : Int)) := by
      have : (n : Int) < 2 ^ 63 := by exact_mod_cast hn
      omega
    simp only [ToCLong, hdrop, List.head?_cons, Option.some.injEq, hminus, hplus, or_self,
      if_false, htake, h4]
    rw [if_neg (by simp), if_neg hrange]

/-- The model pin index that getModelPinIndex reads from the label of the model
pin of index i, for every pin name, is i, when i is not negative and i + 1 fits
an int. -/
theorem getModelPinIndex_modelPinLabel (denv : DIALOG_ENV) (i : Int) (pinName : Str)
    (h0 : 0 ≤ i) (hmax : i + 1 < 2 ^ 31) :
    getModelPinIndex denv (modelPinLabel i pinName) = i := by
  obtain ⟨k, rfl⟩ := Int.eq_ofNat_of_zero_le h0
  have hk : k + 1 < 2 ^ 63 := by
    have : ((k : Int) + 1) < 2 ^ 31 := hmax
    omega
  have hfmt : Format_d ((k : Int) + 1) = decimalDigits (k + 1 + 1) (k + 1) := by
    have hnn : ¬ ((k : Int) + 1 < 0) := by omega
    have ht : ((k : Int) + 1).toNat = k + 1 := by omega
    simp only [Format_d, hnn, if_false, ht]
  obtain ⟨h1, h2, h3, _⟩ := decimalDigits_spec (k + 1 + 1) (k + 1) (Nat.lt_succ_self _)
  have hread := ToCLong_decimalDigits (k + 1) hk
  have hblank : ' ' ∉ decimalDigits (k + 1 + 1) (k + 1) := fun hm => (h2 _ hm).2.2 rfl
  have hback : toInt32 (((k + 1 : Nat) : Int) - 1) = (k : Int) := by
    have : (k : Int) + 1 < 2 ^ 31 := hmax
    simp only [toInt32]
    omega
  have hnot : ∀ rest : Str, decimalDigits (k + 1 + 1) (k + 1) ++ rest
      ≠ "Not Connected".toList := by
    intro rest he
    cases hds : decimalDigits (k + 1 + 1) (k + 1) with
    | nil => exact h1 hds
    | cons x xs =>
      rw [hds] at he
      have hx := (h3 x (by rw [hds]; rfl)).2.2
      have : x = 'N' := by
        have := congrArg List.head? he
        simpa using this
      exact hx this
  by_cases hname : pinName = []
  · have hl : modelPinLabel (k : Int) pinName = decimalDigits (k + 1 + 1) (k + 1) := by
      simp only [modelPinLabel, hname, if_true, hfmt]
    have hn := hnot []
    rw [List.append_nil] at hn
    rw [hl]
    simp only [getModelPinIndex, hn, if_false]
    have hf := find_blank_none _ hblank
    have hf2 : find (decimalDigits (k + 1 + 1) (k + 1)) " ".toList = none := hf
    rw [hf2]
    simp only [List.take_length, hread]
    exact hback
  · have hl : modelPinLabel (k : Int) pinName
        = decimalDigits (k + 1 + 1) (k + 1) ++ ' ' :: ('(' :: (pinName ++ [')'])) := by
      simp only [modelPinLabel, hname, if_false, hfmt]
      simp
    have hn := hnot (' ' :: ('(' :: (pinName ++ [')'])))
    rw [hl]
    simp only [getModelPinIndex, hn, if_false]
    have hf := find_blank_append (decimalDigits (k + 1 + 1) (k + 1))
      ('(' :: (pinName ++ [')'])) hblank
    have hf2 : find (decimalDigits (k + 1 + 1) (k + 1) ++ ' ' :: ('(' :: (pinName ++ [')'])))
        " ".toList = some (decimalDigits (k + 1 + 1) (k + 1)).length := hf
    rw [hf2]
    simp only [List.take_left, hread]
    exact hback

/-- C25: the label that getModelPinString gives the model pin of index i, for
every pin name, is read back by getModelPinIndex as i, for every index i from 0
on for which i + 1 fits an int; and getModelPinIndex reads "Not Connected" as the
NOT_CONNECTED sentinel. -/
theorem model_pin_label_roundtrip (denv : DIALOG_ENV) (m : SIM_MODEL) (i : Int) (pin : PIN)
    (hpin : GetPin m i = .ok pin) (hmax : i + 1 < 2 ^ 31) :
    (getModelPinString m i).map (getModelPinIndex denv) = .ok i
    ∧ (∀ pinName : Str, getModelPinIndex denv (modelPinLabel i pinName) = i)
    ∧ getModelPinIndex denv "Not Connected".toList = denv.NOT_CONNECTED := by
  have h0 : 0 ≤ i := by
    by_contra h
    simp [GetPin, h] at hpin
  refine ⟨?_, fun pinName => getModelPinIndex_modelPinLabel denv i pinName h0 hmax, ?_⟩
  · simp only [getModelPinString, hpin, Except.map]
    rw [getModelPinIndex_modelPinLabel denv i pin.name h0 hmax]
  · simp [getModelPinIndex]

/-- The labels of the three pins of a model, with a name, with a name of blanks
and digits, and without a name: "1 (+)", "2 (a 1)" and "3" are read back as the
indices 0, 1 and 2. -/
theorem model_pin_label_roundtrip_witness :
    ((getModelPinString pinLabels 1).map (getModelPinIndex refDialog) = .ok 1
      ∧ (∀ pinName : Str, getModelPinIndex refDialog (modelPinLabel 1 pinName) = 1)
      ∧ getModelPinIndex refDialog "Not Connected".toList = refDialog.NOT_CONNECTED)
    ∧ [getModelPinString pinLabels 0, getModelPinString pinLabels 1,
        getModelPinString pinLabels 2]
      = [.ok "1 (+)".toList, .ok "2 (a 1)".toList, .ok "3".toList]
    ∧ [getModelPinIndex refDialog "1 (+)".toList, getModelPinIndex refDialog "2 (a 1)".toList,
        getModelPinIndex refDialog "3".toList] = [0, 1, 2] :=
  ⟨model_pin_label_roundtrip refDialog pinLabels 1 ⟨"a 1".toList, []⟩ rfl (by decide),
   rfl, rfl⟩

/-! ## Library models and instance models of the dialog -/

/-- What loadLibrary leaves when the file cannot be read: the library is the new,
empty one that was made for the read; the models made from the library before,
the path text, the combobox and the radio button are as they were. -/
theorem loadLibrary_read_failure (env : LIBRARY_ENV) (d : DIALOG) (aFilePath what : Str)
    (hread : env.ReadFile
        (if ".ibs".toList.isSuffixOf (env.AbsolutePath aFilePath) then SIM_LIBRARY.new .KIBIS
          else SIM_LIBRARY.new .SPICE)
        (env.AbsolutePath aFilePath) = .error what) :
    loadLibrary env d aFilePath
      = { d with
          m_library :=
            if ".ibs".toList.isSuffixOf (env.AbsolutePath aFilePath) then SIM_LIBRARY.new .KIBIS
            else SIM_LIBRARY.new .SPICE,
          ibisMode := env.IsIbisLoaded
            { d with m_library :=
                if ".ibs".toList.isSuffixOf (env.AbsolutePath aFilePath) then
                  SIM_LIBRARY.new .KIBIS
                else SIM_LIBRARY.new .SPICE },
          messages := d.messages ++ [.libraryReadFailed (env.AbsolutePath aFilePath) what] } := by
  simp only [loadLibrary, setIbisMode, hread]

/-- C21 fails on the code. In the dialog that has loaded "models.lib", with its
two models, a call of loadLibrary for a file that cannot be read leaves the two
models made from the library, but the library itself is replaced by a new, empty
one: it is not the library the dialog had before the call. -/
theorem loadLibrary_failure_replaces_library :
    refLibraryEnv.ReadFile (SIM_LIBRARY.new .SPICE)
        (refLibraryEnv.AbsolutePath "missing.lib".toList)
      = .error "cannot open the file".toList
    ∧ loadedDialog.m_library.GetModelNames = ["D1".toList, "D2".toList]
    ∧ (loadLibrary refLibraryEnv loadedDialog "missing.lib".toList).m_library
      = SIM_LIBRARY.new .SPICE
    ∧ (loadLibrary refLibraryEnv loadedDialog "missing.lib".toList).m_library
      ≠ loadedDialog.m_library
    ∧ (loadLibrary refLibraryEnv loadedDialog "missing.lib".toList).m_libraryModels
      = loadedDialog.m_libraryModels
    ∧ loadedDialog.m_libraryModels.length = 2 :=
  ⟨rfl, rfl, rfl, by decide, rfl, rfl⟩

/-- C22: for a model sourced from the instance (the library field is empty), when
the creation of the model from the fields fails with an IO_ERROR,
TransferDataToWindow returns what the base class returns, and the dialog it
leaves is the dialog before the call with the error message displayed: the
table m_models and the current model type m_curModelType are as before. -/
theorem decode_failure_keeps_models (env : LIBRARY_ENV) (d : DIALOG) (what : Str)
    (hlib : GetFieldValue d.m_fields env.LIBRARY_FIELD = [])
    (hfail : env.Create d.m_sortedSymbolPins.length d.m_fields = .error what) :
    ∃ (d1 : DIALOG) (result : Bool),
      TransferDataToWindow env d = .ok (d1, result)
      ∧ d1.m_models = d.m_models
      ∧ d1.m_curModelType = d.m_curModelType
      ∧ d1 = { d with messages := d.messages ++ [.error what] }
      ∧ result = env.BaseTransferDataToWindow d1 := by
  refine ⟨{ d with messages := d.messages ++ [.error what] }, _, ?_, rfl, rfl, rfl, rfl⟩
  simp only [TransferDataToWindow, hlib, hfail, ne_eq, not_true_eq_false, if_false]

/-- The dialog of a symbol whose parameter field is "bad" and has no library:
the creation of the model fails, the two instance models and the current model
type C stay, and one error message is displayed. -/
theorem decode_failure_keeps_models_witness :
    (∃ (d1 : DIALOG) (result : Bool),
      TransferDataToWindow refLibraryEnv (newDialog [⟨"Sim_Params".toList, "bad".toList⟩])
        = .ok (d1, result)
      ∧ d1.m_models = (newDialog [⟨"Sim_Params".toList, "bad".toList⟩]).m_models
      ∧ d1.m_curModelType = (newDialog [⟨"Sim_Params".toList, "bad".toList⟩]).m_curModelType
      ∧ d1 = { newDialog [⟨"Sim_Params".toList, "bad".toList⟩] with
               messages := (newDialog [⟨"Sim_Params".toList, "bad".toList⟩]).messages
                 ++ [.error "cannot read the parameters".toList] }
      ∧ result = refLibraryEnv.BaseTransferDataToWindow d1)
    ∧ (TransferDataToWindow refLibraryEnv
          (newDialog [⟨"Sim_Params".toList, "r=1k".toList⟩])).map
        (fun r => (r.1.m_models.map (fun m => m.params.map (fun p => p.value)),
                   r.1.m_curModelType))
      = .ok ([["1k".toList], [[]]], .R) :=
  ⟨decode_failure_keeps_models refLibraryEnv (newDialog [⟨"Sim_Params".toList, "bad".toList⟩])
      "cannot read the parameters".toList rfl rfl,
   rfl⟩

/-- The loop of loadLibrary, when the creation of the model of every entry
succeeds: it ends without an error, and behind the models it started with it
has pushed one model for each entry, in the order of the entries. -/
theorem loadLibrary_loop_all (env : LIBRARY_ENV) (d : DIALOG) :
    ∀ (entries : List (Str × SIM_MODEL)) (acc : List SIM_MODEL),
      (∀ entry ∈ entries, ∃ model, loadLibrary.createModel env d entry = .ok model) →
      ∃ models : List SIM_MODEL,
        loadLibrary.loop env d entries acc = (acc ++ models, none)
        ∧ models.length = entries.length
        ∧ ∀ (k : Nat) (entry : Str × SIM_MODEL), entries[k]? = some entry →
            ∃ model, models[k]? = some model
              ∧ loadLibrary.createModel env d entry = .ok model := by
  intro entries
  induction entries with
  | nil =>
    intro acc _
    exact ⟨[], by simp [loadLibrary.loop], rfl, by simp⟩
  | cons e rest ih =>
    intro acc hall
    obtain ⟨model, hmodel⟩ := hall e (List.mem_cons_self e rest)
    obtain ⟨models, hloop, hlen, hidx⟩ :=
      ih (acc ++ [model]) (fun entry he => hall entry (List.mem_cons_of_mem e he))
    refine ⟨model :: models, ?_, by simp [hlen], ?_⟩
    · simp only [loadLibrary.loop, hmodel, hloop]
      simp
    · intro k entry hk
      cases k with
      | zero =>
        simp only [List.getElem?_cons_zero, Option.some.injEq] at hk
        subst hk
        exact ⟨model, by simp, hmodel⟩
      | succ k =>
        simp only [List.getElem?_cons_succ] at hk
        obtain ⟨model2, h1, h2⟩ := hidx k entry hk
        exact ⟨model2, by simpa using h1, h2⟩

/-- C23 fails on the code: in the dialog of a symbol that names the model D2 of
the library "models.lib" and whose parameter field is "bad", loadLibrary gets
past the read of the file, which has the two entries D1 and D2; the creation of
the model of D2 from the fields fails, the error is reported, the combobox lists
the two names and m_libraryModels ends with the one model of D1. With the name
D2 selected, curModelSharedPtr then reads past the end of m_libraryModels, and
TransferDataToWindow on this symbol ends with that index error. -/
theorem loadLibrary_creation_failure :
    refLibraryEnv.ReadFile (SIM_LIBRARY.new .SPICE)
        (refLibraryEnv.AbsolutePath "models.lib".toList)
      = .ok { kind := .SPICE,
              entries := [("D1".toList, baseModel), ("D2".toList, baseModel)],
              filePath := "/project/models.lib".toList }
    ∧ (loadLibrary refLibraryEnv
          (newDialog [⟨"Sim_Name".toList, "D2".toList⟩, ⟨"Sim_Params".toList, "bad".toList⟩])
          "models.lib".toList).m_modelNameCombobox = ["D1".toList, "D2".toList]
    ∧ (loadLibrary refLibraryEnv
          (newDialog [⟨"Sim_Name".toList, "D2".toList⟩, ⟨"Sim_Params".toList, "bad".toList⟩])
          "models.lib".toList).m_libraryModels = [baseModel]
    ∧ (loadLibrary refLibraryEnv
          (newDialog [⟨"Sim_Name".toList, "D2".toList⟩, ⟨"Sim_Params".toList, "bad".toList⟩])
          "models.lib".toList).messages = [.error "cannot read the parameters".toList]
    ∧ (SetStringSelection
          (loadLibrary refLibraryEnv
            (newDialog [⟨"Sim_Name".toList, "D2".toList⟩, ⟨"Sim_Params".toList, "bad".toList⟩])
            "models.lib".toList) "D2".toList).m_modelNameSelection = 1
    ∧ curModelSharedPtr refLibraryEnv
          (SetStringSelection
            (loadLibrary refLibraryEnv
              (newDialog [⟨"Sim_Name".toList, "D2".toList⟩, ⟨"Sim_Params".toList, "bad".toList⟩])
              "models.lib".toList) "D2".toList)
        = .error .IndexError
    ∧ TransferDataToWindow refLibraryEnv
          (newDialog [⟨"Sim_Library".toList, "models.lib".toList⟩,
                      ⟨"Sim_Name".toList, "D2".toList⟩, ⟨"Sim_Params".toList, "bad".toList⟩])
        = .error .IndexError :=
  ⟨rfl, rfl, rfl, rfl, rfl, rfl, rfl⟩

/-- When loadLibrary gets past the read of the file and the creation of the
model of every entry succeeds, the names of the combobox are the names of the
library, m_libraryModels has exactly one model for each entry, in the order of
the library, and for the entry of index k the name of index k is its name and
the model of index k, which is the current model when k is selected, is created
from its base model, with the fields when the name of the entry is the model
name in the fields and without them otherwise. -/
theorem loadLibrary_models (env : LIBRARY_ENV) (d : DIALOG) (aFilePath : Str)
    (library : SIM_LIBRARY)
    (hread : env.ReadFile
        (if ".ibs".toList.isSuffixOf (env.AbsolutePath aFilePath) then SIM_LIBRARY.new .KIBIS
          else SIM_LIBRARY.new .SPICE)
        (env.AbsolutePath aFilePath) = .ok library)
    (hcreate : ∀ entry ∈ library.entries, ∃ model,
      loadLibrary.createModel env d entry = .ok model) :
    (loadLibrary env d aFilePath).m_library = library
    ∧ (loadLibrary env d aFilePath).m_modelNameCombobox = library.GetModelNames
    ∧ (loadLibrary env d aFilePath).m_libraryModels.length = library.entries.length
    ∧ ∀ (k : Nat) (name : Str) (base : SIM_MODEL), library.entries.get? k = some (name, base) →
        (loadLibrary env d aFilePath).m_modelNameCombobox.get? k = some name
        ∧ ∃ model : SIM_MODEL,
            (loadLibrary env d aFilePath).m_libraryModels.get? k = some model
            ∧ (if name = GetFieldValue d.m_fields env.KIBIS_NAME_FIELD then
                env.CreateFromBaseAndFields base d.m_sortedSymbolPins.length d.m_fields
               else env.CreateFromBase base d.m_sortedSymbolPins.length) = .ok model
            ∧ curModelSharedPtr env
                { loadLibrary env d aFilePath with m_modelNameSelection := (k : Int) }
              = .ok model := by
  obtain ⟨models, hloop, hlen, hidx⟩ := loadLibrary_loop_all env d library.entries [] hcreate
  have hloop2 : ∀ d3 : DIALOG, d3.m_fields = d.m_fields →
      d3.m_sortedSymbolPins = d.m_sortedSymbolPins →
      loadLibrary.loop env d3 library.entries [] = (models, none) := by
    intro d3 hf hp
    have hsame : ∀ (entries : List (Str × SIM_MODEL)) (acc : List SIM_MODEL),
        loadLibrary.loop env d3 entries acc = loadLibrary.loop env d entries acc := by
      intro entries
      induction entries with
      | nil => intro acc; rfl
      | cons e rest ih =>
        intro acc
        simp only [loadLibrary.loop, loadLibrary.createModel, hf, hp, ih]
    rw [hsame, hloop]
    simp
  have hres : (loadLibrary env d aFilePath).m_library = library
      ∧ (loadLibrary env d aFilePath).m_modelNameCombobox = library.GetModelNames
      ∧ (loadLibrary env d aFilePath).m_libraryModels = models
      ∧ (loadLibrary env d aFilePath).m_useLibraryModelRadioButton = true := by
    simp only [loadLibrary, setIbisMode, hread]
    rw [hloop2]
    · simp
    · rfl
    · rfl
  obtain ⟨h1, h2, h3, h4⟩ := hres
  refine ⟨h1, h2, by rw [h3, hlen], ?_⟩
  intro k name base hk
  rw [List.get?_eq_getElem?] at hk
  obtain ⟨model, hm, hc⟩ := hidx k (name, base) hk
  refine ⟨?_, model, ?_, hc, ?_⟩
  · rw [h2, List.get?_eq_getElem?]
    simp [SIM_LIBRARY.GetModelNames, hk]
  · rw [h3, List.get?_eq_getElem?]
    exact hm
  · have hne : ¬ ((k : Int) = -1) := by omega
    simp only [curModelSharedPtr, h4, h3, hne, vectorAt, List.get?_eq_getElem?,
      Int.toNat_ofNat, hm]
    simp

/-- The load of "models.lib" in the dialog of a symbol that names the model D1:
the combobox lists D1 and D2, m_libraryModels has the model of D1, made with the
fields, at index 0 and the base model of D2 at index 1. -/
theorem loadLibrary_models_witness :
    (loadedDialog.m_library
        = { kind := .SPICE, entries := [("D1".toList, baseModel), ("D2".toList, baseModel)],
            filePath := "/project/models.lib".toList }
      ∧ loadedDialog.m_modelNameCombobox
        = SIM_LIBRARY.GetModelNames
            { kind := .SPICE, entries := [("D1".toList, baseModel), ("D2".toList, baseModel)],
              filePath := "/project/models.lib".toList }
      ∧ loadedDialog.m_libraryModels.length = 2
      ∧ ∀ (k : Nat) (name : Str) (base : SIM_MODEL),
          [("D1".toList, baseModel), ("D2".toList, baseModel)].get? k = some (name, base) →
          loadedDialog.m_modelNameCombobox.get? k = some name
          ∧ ∃ model : SIM_MODEL,
              loadedDialog.m_libraryModels.get? k = some model
              ∧ (if name = GetFieldValue [⟨"Sim_Name".toList, "D1".toList⟩]
                    refLibraryEnv.KIBIS_NAME_FIELD then
                  refLibraryEnv.CreateFromBaseAndFields base 2 [⟨"Sim_Name".toList, "D1".toList⟩]
                 else refLibraryEnv.CreateFromBase base 2) = .ok model
              ∧ curModelSharedPtr refLibraryEnv
                  { loadedDialog with m_modelNameSelection := (k : Int) } = .ok model)
    ∧ loadedDialog.m_modelNameCombobox = ["D1".toList, "D2".toList]
    ∧ loadedDialog.m_libraryModels
      = [{ baseModel with pins := [⟨"+".toList, "1".toList⟩, ⟨"-".toList, "2".toList⟩] },
         baseModel]
    ∧ curModelSharedPtr refLibraryEnv { loadedDialog with m_modelNameSelection := 1 }
      = .ok baseModel :=
  ⟨loadLibrary_models refLibraryEnv (newDialog [⟨"Sim_Name".toList, "D1".toList⟩])
      "models.lib".toList
      { kind := .SPICE, entries := [("D1".toList, baseModel), ("D2".toList, baseModel)],
        filePath := "/project/models.lib".toList }
      rfl
      (by
        intro entry he
        simp only [List.mem_cons, List.mem_singleton, List.not_mem_nil, or_false] at he
        rcases he with rfl | rfl
        · exact ⟨_, rfl⟩
        · exact ⟨_, rfl⟩),
   rfl, rfl, rfl⟩
